import Mathlib

/-!
Verification development for the primer-design batch automation program.

The definitions below are a shallow embedding of the Python sources:
`services/coordinate_service.py`, `models/primer_params.py`,
`services/element_locator.py`, `services/web_automation_service.py` and
`controllers/primer_controller.py`.  Pure helpers of the Python `str` type
are modelled over the ASCII fragment that the program's inputs use; the
browser driver, the pyliftover backend and wall-clock waiting are modelled
as explicit oracles passed in as function arguments.
-/

/-! ## Python string primitives (ASCII fragment) -/

/-- Characters `str.strip()` / `str.split()` treat as whitespace
(ASCII / latin-1 fragment of Python's definition). -/
def pyIsSpace (c : Char) : Bool :=
  c = ' ' || c = '\t' || c = '\n' || c = '\x0d' ||
  c = Char.ofNat 0x0b || c = Char.ofNat 0x0c ||
  c = Char.ofNat 0x1c || c = Char.ofNat 0x1d || c = Char.ofNat 0x1e ||
  c = Char.ofNat 0x1f || c = Char.ofNat 0x85 || c = Char.ofNat 0xa0

/-- Characters `str.splitlines()` breaks on (minus the two-character
sequence CR LF, handled separately). -/
def pyIsLineBreak (c : Char) : Bool :=
  c = '\n' || c = '\x0d' ||
  c = Char.ofNat 0x0b || c = Char.ofNat 0x0c ||
  c = Char.ofNat 0x1c || c = Char.ofNat 0x1d || c = Char.ofNat 0x1e ||
  c = Char.ofNat 0x85 || c = Char.ofNat 0x2028 || c = Char.ofNat 0x2029

/-- Python `str.strip()` on a character list. -/
def pyStripList (cs : List Char) : List Char :=
  ((cs.dropWhile pyIsSpace).reverse.dropWhile pyIsSpace).reverse

/-- Python `str.strip()`. -/
def pyStrip (s : String) : String :=
  String.mk (pyStripList s.toList)

/-- Helper for `pySplit`: accumulates the current token (reversed). -/
def pySplitAux : List Char → List Char → List (List Char)
  | [], acc => if acc.isEmpty then [] else [acc.reverse]
  | c :: cs, acc =>
      if pyIsSpace c then
        if acc.isEmpty then pySplitAux cs [] else acc.reverse :: pySplitAux cs []
      else
        pySplitAux cs (c :: acc)

/-- Python `str.split()` with no separator: splits on runs of whitespace,
producing no empty tokens. -/
def pySplit (s : String) : List String :=
  (pySplitAux s.toList []).map String.mk

/-- Helper for `pySplitlines`: accumulates the current line (reversed). -/
def pySplitlinesAux : List Char → List Char → List String
  | [], acc => if acc.isEmpty then [] else [String.mk acc.reverse]
  | '\x0d' :: '\n' :: cs, acc => String.mk acc.reverse :: pySplitlinesAux cs []
  | c :: cs, acc =>
      if pyIsLineBreak c then String.mk acc.reverse :: pySplitlinesAux cs []
      else pySplitlinesAux cs (c :: acc)

/-- Python `str.splitlines()`. -/
def pySplitlines (s : String) : List String :=
  pySplitlinesAux s.toList []

/-- Python `str.lower()` (ASCII fragment). -/
def pyLower (s : String) : String :=
  String.mk (s.toList.map Char.toLower)

/-- Python `s.replace("chr", "")` on a character list: removes every
(case-sensitive, non-overlapping, left-to-right) occurrence of `chr`. -/
def stripChrAll : List Char → List Char
  | 'c' :: 'h' :: 'r' :: cs => stripChrAll cs
  | c :: cs => c :: stripChrAll cs
  | [] => []

/-- Python `s.lower().replace("chr", "")`, the chromosome-token
normalisation used by both parsing paths. -/
def chromNormalize (s : String) : String :=
  String.mk (stripChrAll (pyLower s).toList)

/-- ASCII decimal digit test. -/
def isAsciiDigit (c : Char) : Bool := '0' ≤ c && c ≤ '9'

/-- Python `str.isdigit()` (ASCII fragment): non-empty and all digits. -/
def pyIsDigit (s : String) : Bool :=
  !s.toList.isEmpty && s.toList.all isAsciiDigit

/-- Numeric value of an all-digit string. -/
def digitsToNat (cs : List Char) : Nat :=
  cs.foldl (fun n c => 10 * n + (c.toNat - 48)) 0

/-- Value of `int(s)` for an all-digit token. -/
def strToNat (s : String) : Nat := digitsToNat s.toList

/-- Helper for `pyIntOfString?`: digit groups separated by single
underscores, after an initial digit has been consumed. -/
def pyIntDigitsAux : List Char → Nat → Option Nat
  | [], n => some n
  | '_' :: c :: cs, n =>
      if isAsciiDigit c then pyIntDigitsAux cs (10 * n + (c.toNat - 48)) else none
  | ['_'], _ => none
  | c :: cs, n =>
      if isAsciiDigit c then pyIntDigitsAux cs (10 * n + (c.toNat - 48)) else none

/-- Digit part of Python's `int(str)` grammar: a non-empty digit string,
optionally with single underscores between digits. -/
def pyIntDigits : List Char → Option Nat
  | c :: cs => if isAsciiDigit c then pyIntDigitsAux cs (c.toNat - 48) else none
  | [] => none

/-- Python `int(s)` on a whitespace-free token: optional sign followed by
digits (with optional single underscores); `none` models `ValueError`. -/
def pyIntOfString? (s : String) : Option Int :=
  match s.toList with
  | '+' :: rest => (pyIntDigits rest).map Int.ofNat
  | '-' :: rest => (pyIntDigits rest).map fun n => -(n : Int)
  | rest => (pyIntDigits rest).map Int.ofNat

/-! ## CoordinateService (`services/coordinate_service.py`) -/

/-- Error outcomes of `parse_coordinate_line`, one constructor per
`return` site carrying an error message in the source. -/
inductive ParseError where
  | emptyLine : ParseError
  | formatError (ncols : Nat) : ParseError
  | chromosomeError (chrom : String) : ParseError
  | positionFormatError (tok : String) : ParseError
  | positionValueError (v : Int) : ParseError
  deriving Repr, DecidableEq

/-- Coarse error categories named by the specification. -/
inductive ParseErrorKind where
  | format : ParseErrorKind
  | chromosome : ParseErrorKind
  | position : ParseErrorKind
  deriving Repr, DecidableEq

/-- Category of each concrete parse error (a blank line is a structural
failure, i.e. fewer than two columns). -/
def ParseError.kind : ParseError → ParseErrorKind
  | .emptyLine => .format
  | .formatError _ => .format
  | .chromosomeError _ => .chromosome
  | .positionFormatError _ => .position
  | .positionValueError _ => .position

/-- Mirror of the dataclass `CoordinateValidationResult`. -/
structure CoordinateValidationResult where
  line_number : Nat
  original_line : String
  is_valid : Bool
  chromosome : Option String := none
  position : Option Int := none
  error_message : Option ParseError := none
  deriving Repr, DecidableEq

/-- Mirror of `CoordinateService.ALLOWED_CHROMOSOMES`,
`set(str(i) for i in range(1, 25)) | set("x", "y")`, written out
extensionally. -/
def ALLOWED_CHROMOSOMES : List String :=
  ["1", "2", "3", "4", "5", "6", "7", "8", "9", "10", "11", "12", "13", "14",
   "15", "16", "17", "18", "19", "20", "21", "22", "23", "24", "x", "y"]

/-- Mirror of `CoordinateService.parse_coordinate_line`: returns the
`(chromosome, position, error_message)` triple. -/
def parse_coordinate_line (line : String) :
    Option String × Option Int × Option ParseError :=
  let s := pyStrip line
  if s = "" then (none, none, some ParseError.emptyLine)
  else
    match pySplit s with
    | p0 :: p1 :: _ =>
        let chrom_raw := chromNormalize p0
        if chrom_raw ∈ ALLOWED_CHROMOSOMES then
          if pyIsDigit p1 then
            let pos_val : Int := (strToNat p1 : Int)
            if pos_val ≤ 0 then (none, none, some (ParseError.positionValueError pos_val))
            else (some chrom_raw, some pos_val, none)
          else (none, none, some (ParseError.positionFormatError p1))
        else (none, none, some (ParseError.chromosomeError chrom_raw))
    | parts => (none, none, some (ParseError.formatError parts.length))

/-- Loop body of `validate_coordinates_batch`, recursing over the lines of
the input with their 1-based indices. -/
def validateBatchAux :
    Nat → List String →
    List CoordinateValidationResult × List CoordinateValidationResult
  | _, [] => ([], [])
  | idx, l :: rest =>
      let s := pyStrip l
      let (v, iv) := validateBatchAux (idx + 1) rest
      if s = "" then (v, iv)
      else
        let r := parse_coordinate_line s
        if r.2.2.isSome then
          (v, { line_number := idx, original_line := s, is_valid := false,
                error_message := r.2.2 } :: iv)
        else
          ({ line_number := idx, original_line := s, is_valid := true,
             chromosome := r.1, position := r.2.1 } :: v, iv)

/-- Mirror of `CoordinateService.validate_coordinates_batch`
(the `genome_version` argument is accepted and unused, as in the source). -/
def validate_coordinates_batch (lines_text : String) (_genome_version : String) :
    List CoordinateValidationResult × List CoordinateValidationResult :=
  validateBatchAux 1 (pySplitlines lines_text)

/-! ## Liftover backend and `convert_hg19_to_hg38` -/

/-- Outcome of one `pyliftover` `convert_coordinate` call: a list of mapped
intervals, each carrying a chromosome name and a position (an empty list
also models Python `None`, which the source treats identically), or a
raised exception with its message. -/
inductive LiftResult where
  | intervals (l : List (String × Int)) : LiftResult
  | raises (msg : String) : LiftResult

/-- A loaded liftover backend: the lookup behaviour of
`LiftOver.convert_coordinate`. -/
def LiftBackend := String → Int → LiftResult

/-- Outcome of constructing `LiftOver(chain_file)`: either a usable
backend or a raised exception (missing or corrupt chain file). -/
inductive LiftLoad where
  | ok (backend : LiftBackend) : LiftLoad
  | raises (msg : String) : LiftLoad

/-- State of a `CoordinateService` instance: only the `liftover` field
matters to the modelled operations. -/
structure CoordinateServiceState where
  liftover : Option LiftBackend

/-- Mirror of `CoordinateService.__init__`: the backend is loaded only when
pyliftover is importable and a chain file was given; a load exception is
swallowed, leaving `liftover = None`. -/
def CoordinateService_init (hasLiftover : Bool) (chainFile : Option String)
    (load : String → LiftLoad) : CoordinateServiceState :=
  match hasLiftover, chainFile with
  | true, some f =>
      match load f with
      | .ok b => { liftover := some b }
      | .raises _ => { liftover := none }
  | _, _ => { liftover := none }

/-- Error outcomes of `convert_hg19_to_hg38`, one constructor per error
message in the source. -/
inductive ConvError where
  | notInitialized : ConvError
  | noCoordinate (chrom : String) (pos : Int) : ConvError
  | conversionFailed (msg : String) : ConvError
  deriving Repr, DecidableEq

/-- Chromosome-name formatting performed by `convert_hg19_to_hg38` before
the lookup: lowercase, ensure a `chr` prefix, restore uppercase X/Y. -/
def formatChromForLiftover (chromosome : String) : String :=
  let cf := pyLower chromosome
  let cf := if cf.startsWith "chr" then cf else "chr" ++ cf
  if cf = "chrx" then "chrX" else if cf = "chry" then "chrY" else cf

/-- Mirror of `CoordinateService.convert_hg19_to_hg38`, instrumented with
the list of lookups issued to the backend.  Returns the
`(new_chromosome, new_position, error_message)` triple together with that
list; the un-instrumented function is `convert_hg19_to_hg38`. -/
def convert_hg19_to_hg38_traced (svc : CoordinateServiceState)
    (chromosome : String) (position : Int) :
    (Option String × Option Int × Option ConvError) × List (String × Int) :=
  match svc.liftover with
  | none => ((none, none, some ConvError.notInitialized), [])
  | some backend =>
      let cf := formatChromForLiftover chromosome
      match backend cf position with
      | .raises m => ((none, none, some (ConvError.conversionFailed m)), [(cf, position)])
      | .intervals [] =>
          ((none, none, some (ConvError.noCoordinate chromosome position)), [(cf, position)])
      | .intervals ((c0, p0) :: _) =>
          ((some (pyLower (String.mk (stripChrAll c0.toList))), some p0, none),
           [(cf, position)])

/-- Mirror of `CoordinateService.convert_hg19_to_hg38` (result triple). -/
def convert_hg19_to_hg38 (svc : CoordinateServiceState)
    (chromosome : String) (position : Int) :
    Option String × Option Int × Option ConvError :=
  (convert_hg19_to_hg38_traced svc chromosome position).1

/-- Mirror of `PrimerController.initialize_coordinate_service`: constructs
the service and raises `RuntimeError` (modelled as `Except.error`) when its
`liftover` field is `None`. -/
def initialize_coordinate_service (hasLiftover : Bool) (chainFile : String)
    (load : String → LiftLoad) : Except String CoordinateServiceState :=
  let svc := CoordinateService_init hasLiftover (some chainFile) load
  match svc.liftover with
  | none => Except.error "坐标转换器初始化失败"
  | some _ => Except.ok svc

/-! ## PrimerParams (`models/primer_params.py`) -/

/-- Field values offered to the `PrimerParams` pydantic model.  Integer
fields are Python ints; the three Tm fields are floats, modelled as
rationals. -/
structure PrimerParamsInput where
  pcr_min : Int := 100
  pcr_max : Int := 1200
  tm_min : ℚ := 58
  tm_opt : ℚ := 60
  tm_max : ℚ := 62
  tm_max_difference : Int := 2
  primer_min_size : Int := 18
  primer_opt_size : Int := 20
  primer_max_size : Int := 25
  primer_num_return : Int := 10
  end_gc_max : Int := 4
  max_poly_x : Int := 4
  extension_left : Int := 800
  extension_right : Int := 800
  deriving Repr, DecidableEq

namespace PrimerParamsInput

/-- Per-field `Field(ge=..., le=...)` bound of `pcr_min`. -/
def pcrMinBound (p : PrimerParamsInput) : Bool := 50 ≤ p.pcr_min && p.pcr_min ≤ 30000

/-- Per-field bound of `pcr_max`. -/
def pcrMaxBound (p : PrimerParamsInput) : Bool := 50 ≤ p.pcr_max && p.pcr_max ≤ 30000

/-- Per-field bound of `tm_min` (`gt=30, lt=95`). -/
def tmMinBound (p : PrimerParamsInput) : Bool := 30 < p.tm_min && p.tm_min < 95

/-- Per-field bound of `tm_opt`. -/
def tmOptBound (p : PrimerParamsInput) : Bool := 30 < p.tm_opt && p.tm_opt < 95

/-- Per-field bound of `tm_max`. -/
def tmMaxBound (p : PrimerParamsInput) : Bool := 30 < p.tm_max && p.tm_max < 95

/-- Per-field bound of `tm_max_difference`. -/
def tmDiffBound (p : PrimerParamsInput) : Bool :=
  0 ≤ p.tm_max_difference && p.tm_max_difference ≤ 10

/-- Per-field bound of `primer_min_size`. -/
def primerMinBound (p : PrimerParamsInput) : Bool :=
  10 ≤ p.primer_min_size && p.primer_min_size ≤ 40

/-- Per-field bound of `primer_opt_size`. -/
def primerOptBound (p : PrimerParamsInput) : Bool :=
  10 ≤ p.primer_opt_size && p.primer_opt_size ≤ 40

/-- Per-field bound of `primer_max_size`. -/
def primerMaxBound (p : PrimerParamsInput) : Bool :=
  10 ≤ p.primer_max_size && p.primer_max_size ≤ 40

/-- Per-field bound of `primer_num_return`. -/
def numReturnBound (p : PrimerParamsInput) : Bool :=
  1 ≤ p.primer_num_return && p.primer_num_return ≤ 50

/-- Per-field bound of `end_gc_max`. -/
def endGcBound (p : PrimerParamsInput) : Bool := 0 ≤ p.end_gc_max && p.end_gc_max ≤ 5

/-- Per-field bound of `max_poly_x`. -/
def polyXBound (p : PrimerParamsInput) : Bool := 0 ≤ p.max_poly_x && p.max_poly_x ≤ 10

/-- Per-field bound of `extension_left` (`ge=0`). -/
def extLeftBound (p : PrimerParamsInput) : Bool := 0 ≤ p.extension_left

/-- Per-field bound of `extension_right`. -/
def extRightBound (p : PrimerParamsInput) : Bool := 0 ≤ p.extension_right

/-- Conjunction of all declared per-field bounds. -/
def allFieldBounds (p : PrimerParamsInput) : Bool :=
  p.pcrMinBound && p.pcrMaxBound && p.tmMinBound && p.tmOptBound && p.tmMaxBound &&
  p.tmDiffBound && p.primerMinBound && p.primerOptBound && p.primerMaxBound &&
  p.numReturnBound && p.endGcBound && p.polyXBound && p.extLeftBound && p.extRightBound

/-- In pydantic v1, a field is available to later validators (present in
`values`) only when its own bound and validator checks passed.  Presence
of `pcr_min`. -/
def pcrMinPresent (p : PrimerParamsInput) : Bool := p.pcrMinBound

/-- Presence of `tm_min` (no validator of its own). -/
def tmMinPresent (p : PrimerParamsInput) : Bool := p.tmMinBound

/-- Presence of `tm_opt`: bound plus its validator (skipped when `tm_min`
is absent). -/
def tmOptPresent (p : PrimerParamsInput) : Bool :=
  p.tmOptBound && !(p.tmMinPresent && p.tm_opt ≤ p.tm_min)

/-- Presence of `tm_max`: bound plus its validator against `tm_opt`. -/
def tmMaxPresent (p : PrimerParamsInput) : Bool :=
  p.tmMaxBound && !(p.tmOptPresent && p.tm_max ≤ p.tm_opt)

/-- Presence of `primer_min_size` (no validator of its own). -/
def primerMinPresent (p : PrimerParamsInput) : Bool := p.primerMinBound

/-- Presence of `primer_opt_size`: bound plus its validator. -/
def primerOptPresent (p : PrimerParamsInput) : Bool :=
  p.primerOptBound && !(p.primerMinPresent && p.primer_opt_size < p.primer_min_size)

/-- Validation errors collected by pydantic for a `PrimerParams`
construction, in field order; each entry names the offending field and the
violated bound.  Mirrors the `Field` bounds and the six `@validator`
functions of the source (a cross-field validator is skipped when the field
it compares against failed its own validation). -/
def primerParamsErrors (p : PrimerParamsInput) : List (String × String) :=
  (if p.pcrMinBound then [] else [("pcr_min", "50 <= pcr_min <= 30000")]) ++
  (if !p.pcrMaxBound then [("pcr_max", "50 <= pcr_max <= 30000")]
   else if p.pcrMinPresent && p.pcr_max ≤ p.pcr_min then
     [("pcr_max", "PCR最大值必须大于最小值")]
   else []) ++
  (if p.tmMinBound then [] else [("tm_min", "30 < tm_min < 95")]) ++
  (if !p.tmOptBound then [("tm_opt", "30 < tm_opt < 95")]
   else if p.tmMinPresent && p.tm_opt ≤ p.tm_min then
     [("tm_opt", "最佳Tm值必须大于最小Tm值")]
   else []) ++
  (if !p.tmMaxBound then [("tm_max", "30 < tm_max < 95")]
   else if p.tmOptPresent && p.tm_max ≤ p.tm_opt then
     [("tm_max", "最大Tm值必须大于最佳Tm值")]
   else []) ++
  (if !p.tmDiffBound then [("tm_max_difference", "0 <= tm_max_difference <= 10")]
   else if p.tmMinPresent && p.tmMaxPresent &&
       (p.tm_max - p.tm_min) < (p.tm_max_difference : ℚ) then
     [("tm_max_difference", "最大Tm差值不能超过Tm范围")]
   else []) ++
  (if p.primerMinBound then [] else [("primer_min_size", "10 <= primer_min_size <= 40")]) ++
  (if !p.primerOptBound then [("primer_opt_size", "10 <= primer_opt_size <= 40")]
   else if p.primerMinPresent && p.primer_opt_size < p.primer_min_size then
     [("primer_opt_size", "最佳引物大小不能小于最小值")]
   else []) ++
  (if !p.primerMaxBound then [("primer_max_size", "10 <= primer_max_size <= 40")]
   else if p.primerOptPresent && p.primer_max_size < p.primer_opt_size then
     [("primer_max_size", "最大引物大小不能小于最佳值")]
   else []) ++
  (if p.numReturnBound then [] else [("primer_num_return", "1 <= primer_num_return <= 50")]) ++
  (if p.endGcBound then [] else [("end_gc_max", "0 <= end_gc_max <= 5")]) ++
  (if p.polyXBound then [] else [("max_poly_x", "0 <= max_poly_x <= 10")]) ++
  (if p.extLeftBound then [] else [("extension_left", "0 <= extension_left")]) ++
  (if p.extRightBound then [] else [("extension_right", "0 <= extension_right")])

/-- Construction succeeds exactly when pydantic collected no errors. -/
def accepted (p : PrimerParamsInput) : Bool := primerParamsErrors p = []

/-- Conjunction of the six cross-field `@validator` checks, stated as the
source states them. -/
def crossChecksOk (p : PrimerParamsInput) : Bool :=
  p.pcr_min < p.pcr_max && p.tm_min < p.tm_opt && p.tm_opt < p.tm_max &&
  (p.tm_max_difference : ℚ) ≤ p.tm_max - p.tm_min &&
  p.primer_min_size ≤ p.primer_opt_size && p.primer_opt_size ≤ p.primer_max_size

end PrimerParamsInput

/-! ## ElementLocator (`services/element_locator.py`) -/

/-! Selenium locator mechanisms used by the strategy table. -/

namespace By

/-- `By.ID`. -/
def ID : String := "id"

/-- `By.NAME`. -/
def NAME : String := "name"

/-- `By.CSS_SELECTOR`. -/
def CSS_SELECTOR : String := "css selector"

/-- `By.XPATH`. -/
def XPATH : String := "xpath"

/-- `By.LINK_TEXT`. -/
def LINK_TEXT : String := "link text"

/-- `By.CLASS_NAME`. -/
def CLASS_NAME : String := "class name"

end By

/-- Mirror of the dataclass `LocatorStrategy`. -/
structure LocatorStrategy where
  by_ : String
  value : String
  description : String := ""
  deriving Repr, DecidableEq

/-- Mirror of `ElementLocator.locator_strategies`: the static per-key
ordered strategy lists, as an association list in the source's insertion
order. -/
def locator_strategies : List (String × List LocatorStrategy) :=
  [("seq_input",
    [⟨By.ID, "seq", "主要"⟩, ⟨By.NAME, "seq", "备用1"⟩,
     ⟨By.CSS_SELECTOR, "textarea[name=\x22seq\x22]", "备用2"⟩,
     ⟨By.XPATH, "//textarea[@id=\x22seq\x22]", "备用3"⟩]),
   ("one_target_tab",
    [⟨By.ID, "OneTargTab", "主要"⟩, ⟨By.XPATH, "//a[@id=\x22OneTargTab\x22]", "备用1"⟩,
     ⟨By.CSS_SELECTOR, "a#OneTargTab", "备用2"⟩, ⟨By.LINK_TEXT, "Pick primer", "备用3"⟩]),
   ("advanced_button",
    [⟨By.ID, "btnDescrOver", "主要"⟩, ⟨By.CLASS_NAME, "jig-ncbiinpagenav", "备用1"⟩,
     ⟨By.XPATH, "//button[@id=\x22btnDescrOver\x22]", "备用2"⟩,
     ⟨By.CSS_SELECTOR, "button#btnDescrOver", "备用3"⟩]),
   ("pcr_min",
    [⟨By.ID, "PRIMER_PRODUCT_MIN", "主要"⟩, ⟨By.NAME, "PRIMER_PRODUCT_MIN", "备用1"⟩,
     ⟨By.CSS_SELECTOR, "input[name=\x22PRIMER_PRODUCT_MIN\x22]", "备用2"⟩]),
   ("pcr_max",
    [⟨By.ID, "PRIMER_PRODUCT_MAX", "主要"⟩, ⟨By.NAME, "PRIMER_PRODUCT_MAX", "备用1"⟩,
     ⟨By.CSS_SELECTOR, "input[name=\x22PRIMER_PRODUCT_MAX\x22]", "备用2"⟩]),
   ("tm_min", [⟨By.ID, "PRIMER_MIN_TM", "主要"⟩, ⟨By.NAME, "PRIMER_MIN_TM", "备用1"⟩]),
   ("tm_opt", [⟨By.ID, "PRIMER_OPT_TM", "主要"⟩, ⟨By.NAME, "PRIMER_OPT_TM", "备用1"⟩]),
   ("tm_max", [⟨By.ID, "PRIMER_MAX_TM", "主要"⟩, ⟨By.NAME, "PRIMER_MAX_TM", "备用1"⟩]),
   ("tm_max_diff",
    [⟨By.ID, "PRIMER_MAX_DIFF_TM", "主要"⟩, ⟨By.NAME, "PRIMER_MAX_DIFF_TM", "备用1"⟩]),
   ("primer_min_size",
    [⟨By.ID, "PRIMER_MIN_SIZE", "主要"⟩, ⟨By.NAME, "PRIMER_MIN_SIZE", "备用1"⟩]),
   ("primer_opt_size",
    [⟨By.ID, "PRIMER_OPT_SIZE", "主要"⟩, ⟨By.NAME, "PRIMER_OPT_SIZE", "备用1"⟩]),
   ("primer_max_size",
    [⟨By.ID, "PRIMER_MAX_SIZE", "主要"⟩, ⟨By.NAME, "PRIMER_MAX_SIZE", "备用1"⟩]),
   ("primer_num_return",
    [⟨By.ID, "PRIMER_NUM_RETURN", "主要"⟩, ⟨By.NAME, "PRIMER_NUM_RETURN", "备用1"⟩]),
   ("end_gc_max",
    [⟨By.ID, "PRIMER_MAX_END_GC", "主要"⟩, ⟨By.NAME, "PRIMER_MAX_END_GC", "备用1"⟩]),
   ("poly_x", [⟨By.ID, "POLYX", "主要"⟩, ⟨By.NAME, "POLYX", "备用1"⟩]),
   ("primer5_start", [⟨By.ID, "PRIMER5_START", "主要"⟩, ⟨By.NAME, "PRIMER5_START", "备用1"⟩]),
   ("primer5_end", [⟨By.ID, "PRIMER5_END", "主要"⟩, ⟨By.NAME, "PRIMER5_END", "备用1"⟩]),
   ("primer3_start", [⟨By.ID, "PRIMER3_START", "主要"⟩, ⟨By.NAME, "PRIMER3_START", "备用1"⟩]),
   ("primer3_end", [⟨By.ID, "PRIMER3_END", "主要"⟩, ⟨By.NAME, "PRIMER3_END", "备用1"⟩]),
   ("organism", [⟨By.ID, "ORGANISM", "主要"⟩, ⟨By.NAME, "ORGANISM", "备用1"⟩]),
   ("database",
    [⟨By.ID, "PRIMER_SPECIFICITY_DATABASE", "主要"⟩,
     ⟨By.NAME, "PRIMER_SPECIFICITY_DATABASE", "备用1"⟩]),
   ("submit_button",
    [⟨By.CSS_SELECTOR, "input.blastbutton.prbutton", "主要"⟩,
     ⟨By.XPATH, "//input[@type=\x22submit\x22 and @class=\x22blastbutton prbutton\x22]", "备用1"⟩,
     ⟨By.CSS_SELECTOR, "input[type=\x22submit\x22].prbutton", "备用2"⟩,
     ⟨By.XPATH, "//input[@value=\x22Get Primers\x22]", "备用3"⟩])]

/-- Mirror of `self.locator_strategies.get(element_key, [])`. -/
def strategiesFor (element_key : String) : List LocatorStrategy :=
  match locator_strategies.lookup element_key with
  | some l => l
  | none => []

/-- Outcome of one `WebDriverWait(driver, timeout).until(...)` poll for one
strategy: the element found within the timeout, or `none` for a
timeout / no-such-element / other exception (all of which make
`find_element` move on to the next strategy).  The oracle receives the
strategy together with the `timeout` and `wait_clickable` arguments the
source passes to the wait. -/
def DomOracle (α : Type) := LocatorStrategy → Nat → Bool → Option α

/-- Strategy loop of `find_element`, instrumented with the list of
strategies actually evaluated, in order. -/
def findElementLoop {α : Type} (dom : DomOracle α) (timeout : Nat)
    (wait_clickable : Bool) : List LocatorStrategy → Option α × List LocatorStrategy
  | [] => (none, [])
  | s :: rest =>
      match dom s timeout wait_clickable with
      | some e => (some e, [s])
      | none =>
          let (r, tried) := findElementLoop dom timeout wait_clickable rest
          (r, s :: tried)

/-- Mirror of `ElementLocator.find_element`, instrumented with the
evaluated strategies; the result component is `find_element`'s return
value (`None` when every strategy failed or the key is unknown). -/
def find_element_traced {α : Type} (dom : DomOracle α) (element_key : String)
    (timeout : Nat := 10) (wait_clickable : Bool := false) :
    Option α × List LocatorStrategy :=
  findElementLoop dom timeout wait_clickable (strategiesFor element_key)

/-- Mirror of `ElementLocator.find_element` (result only). -/
def find_element {α : Type} (dom : DomOracle α) (element_key : String)
    (timeout : Nat := 10) (wait_clickable : Bool := false) : Option α :=
  (find_element_traced dom element_key timeout wait_clickable).1

/-! ## Primer range computation (`services/web_automation_service.py`) -/

/-- Mirror of `PrimerBlastPage.set_primer_range`: the four values written
to the `PRIMER5_START`, `PRIMER5_END`, `PRIMER3_START`, `PRIMER3_END`
fields, in write order. -/
def set_primer_range (position ext_left ext_right : Int) : List (String × Int) :=
  let left_start := max 1 (position - ext_left)
  let left_end := max 1 (position - 20)
  let right_start := position + 20
  let right_end := position + ext_right
  [("primer5_start", left_start), ("primer5_end", left_end),
   ("primer3_start", right_start), ("primer3_end", right_end)]

/-- Range writes issued by one `WebAutomationService.submit_primer_design`
call: the source invokes `set_primer_range(position, params.extension_left,
params.extension_right)`. -/
def submit_primer_design_range_writes (position : Int) (params : PrimerParamsInput) :
    List (String × Int) :=
  set_primer_range position params.extension_left params.extension_right

/-! ## BatchOrchestrator (`controllers/primer_controller.py`) -/

/-- Mirror of the `TaskState` enumeration. -/
inductive TaskState where
  | idle | initializing | running | paused | stopping | completed | error
  deriving Repr, DecidableEq

/-- Mirror of the dataclass `ProcessingStats`. -/
structure ProcessingStats where
  total : Nat := 0
  processed : Nat := 0
  success : Nat := 0
  failed : Nat := 0
  skipped : Nat := 0
  deriving Repr, DecidableEq

/-- One-way notifications emitted to the presentation layer (the pyqt
signals of `PrimerController`).  Progress texts emitted from inside
per-item processing and the browser helper are abstracted away; the
structural signals are kept. -/
inductive CtrlEvent where
  | progressUpdated (msg : String) : CtrlEvent
  | statsUpdated (st : ProcessingStats) : CtrlEvent
  | taskStarted : CtrlEvent
  | taskCompleted (st : ProcessingStats) : CtrlEvent
  | taskStopped : CtrlEvent
  | errorOccurred (title msg : String) : CtrlEvent
  deriving Repr, DecidableEq

/-- Controller state shared between the worker and front-end threads:
`_task_state`, `should_stop`, the stats counters, and whether
`coord_service` has been (successfully) initialized. -/
structure CtrlState where
  taskState : TaskState
  shouldStop : Bool := false
  coordInit : Bool := false
  stats : ProcessingStats := {}
  deriving Repr, DecidableEq

/-- Mirror of `PrimerController.can_start_new_task`. -/
def can_start_new_task (s : TaskState) : Bool :=
  s = TaskState.idle || s = TaskState.completed || s = TaskState.error

/-- Mirror of `PrimerController._parse_without_validation` applied to one
line with its 1-based index: a record is produced when the line is
non-blank, has at least two tokens and `int(parts[1])` does not raise;
no chromosome membership check is performed. -/
def parseNoValidationLine (idx : Nat) (line : String) :
    Option CoordinateValidationResult :=
  let s := pyStrip line
  if s = "" then none
  else
    match pySplit s with
    | p0 :: p1 :: _ =>
        (pyIntOfString? p1).map fun pos =>
          { line_number := idx, original_line := s, is_valid := true,
            chromosome := some (chromNormalize p0), position := some pos }
    | _ => none

/-- Loop of `PrimerController._parse_without_validation` over the
enumerated lines. -/
def parseNoValidationAux : Nat → List String → List CoordinateValidationResult
  | _, [] => []
  | idx, l :: rest =>
      match parseNoValidationLine idx l with
      | some r => r :: parseNoValidationAux (idx + 1) rest
      | none => parseNoValidationAux (idx + 1) rest

/-- Mirror of `PrimerController._parse_without_validation`. -/
def parse_without_validation (input_text : String) : List CoordinateValidationResult :=
  parseNoValidationAux 1 (pySplitlines input_text)

/-- Environment of one `start_batch_processing` call: its arguments, plus
whether `coord_service` initialization would succeed (chain file loadable)
when the controller has to perform it. -/
structure BatchEnv where
  input_text : String
  genome_version : String
  skip_validation : Bool := false
  coordInitOk : Bool := true

/-- Oracle for the externally-determined behaviour during one batch:
browser liveness / readiness, per-item outcomes, and the arrival point of
a `stop_processing` request.  `stopArrival = some k` means the request
arrives (while the task is initializing or running) just before the
worker's `k`-th read of `should_stop`; reads are made at the top of each
loop iteration (read `i` for item `i`) and once after the loop.  At that
arrival point `stop_processing` sets `should_stop` and moves the task
state to `stopping`.  `stopArrival = none` (or an arrival index past the
final read) means no stop request lands during the batch. -/
structure BatchOracle where
  ensureReadyInitial : Bool := true
  driverAliveAt : Nat → Bool := fun _ => true
  browserReadyAt : Nat → Bool := fun _ => true
  itemSucceeds : Nat → Bool := fun _ => true
  stopArrival : Option Nat := none

/-- Value of `should_stop` at the worker's `i`-th read. -/
def stopSeen (stopArrival : Option Nat) (i : Nat) : Bool :=
  match stopArrival with
  | some k => k ≤ i
  | none => false

/-- Stats mutation of one loop iteration: `success` or `failed` is
incremented by `_process_single_coordinate(_with_retry)` according to the
item's outcome, then the loop increments `processed`. -/
def itemStatsUpdate (orc : BatchOracle) (i : Nat) (st : ProcessingStats) :
    ProcessingStats :=
  let stats1 :=
    if orc.itemSucceeds i then { st with success := st.success + 1 }
    else { st with failed := st.failed + 1 }
  { stats1 with processed := stats1.processed + 1 }

/-- Per-item loop of `start_batch_processing` (the `for result in
valid_results` body together with the post-loop completion check), over the
number of remaining items.  Per-item progress texts are abstracted away;
state transitions, stats mutations and signals are mirrored.  After an
exhausted loop with `should_stop` set, the state remains `stopping` (set by
`stop_processing` at arrival, never overwritten): the `finally` block only
rewrites a `running` state, and no path leaves the loop in `running`. -/
def runItems (orc : BatchOracle) : Nat → Nat → CtrlState → CtrlState × List CtrlEvent
  | i, 0, c =>
      if stopSeen orc.stopArrival i then
        ({ c with taskState := TaskState.stopping, shouldStop := true }, [])
      else
        ({ c with taskState := TaskState.completed },
         [CtrlEvent.progressUpdated "所有任务处理完成!", CtrlEvent.taskCompleted c.stats])
  | i, remaining + 1, c =>
      if stopSeen orc.stopArrival i then
        ({ c with taskState := TaskState.idle, shouldStop := true },
         [CtrlEvent.progressUpdated "用户取消操作", CtrlEvent.taskStopped])
      else if !orc.driverAliveAt i && !orc.browserReadyAt i then
        ({ c with taskState := TaskState.error },
         [CtrlEvent.errorOccurred "浏览器错误" "浏览器已关闭且无法重启，请手动重新开始"])
      else
        let stats2 := itemStatsUpdate orc i c.stats
        let (c', evs) := runItems orc (i + 1) remaining { c with stats := stats2 }
        (c', CtrlEvent.statsUpdated stats2 :: evs)

/-- Valid records a `start_batch_processing` call iterates over: the
validated partition's valid list, or the best-effort parse when
`skip_validation` was requested. -/
def validResultsOf (env : BatchEnv) : List CoordinateValidationResult :=
  if env.skip_validation then parse_without_validation env.input_text
  else (validate_coordinates_batch env.input_text env.genome_version).1

/-- Mirror of `PrimerController.start_batch_processing`: the guard against
a conflicting task, coordinate-service initialization, input validation (or
the skip-validation parse), stats initialization, browser readiness, and
the per-item loop.  Returns the final controller state and the emitted
signals in order. -/
def start_batch_processing (env : BatchEnv) (orc : BatchOracle)
    (c : CtrlState) : CtrlState × List CtrlEvent :=
  if !can_start_new_task c.taskState then
    (c, [CtrlEvent.errorOccurred "任务冲突" "请等待当前任务完成"])
  else
    let c1 : CtrlState := { c with taskState := TaskState.initializing, shouldStop := false }
    if !c1.coordInit && !env.coordInitOk then
      ({ c1 with taskState := TaskState.error },
       [CtrlEvent.taskStarted, CtrlEvent.errorOccurred "初始化失败" "坐标转换服务初始化失败"])
    else
      let c2 : CtrlState := { c1 with coordInit := true }
      let valid := validResultsOf env
      if valid.isEmpty then
        ({ c2 with taskState := TaskState.error },
         [CtrlEvent.taskStarted, CtrlEvent.errorOccurred "没有有效数据" "所有输入的坐标都无效"])
      else
        let c3 : CtrlState := { c2 with stats := { total := valid.length } }
        if !orc.ensureReadyInitial then
          ({ c3 with taskState := TaskState.error },
           [CtrlEvent.taskStarted, CtrlEvent.statsUpdated c3.stats,
            CtrlEvent.errorOccurred "浏览器错误" "浏览器准备失败"])
        else
          let c4 : CtrlState := { c3 with taskState := TaskState.running }
          let (c5, evs) := runItems orc 0 valid.length c4
          (c5, [CtrlEvent.taskStarted, CtrlEvent.statsUpdated c3.stats,
                CtrlEvent.progressUpdated "开始处理"] ++ evs)

/-! ## Theorems -/

/-- C7: for every position ≥ 1 and non-negative extensions, one submission
writes the four primer-search range fields as exactly
`max(1, position − extension_left)`, `max(1, position − 20)`,
`position + 20` and `position + extension_right`, every written bound
being ≥ 1. -/
theorem c7_primer_range_windows (position : Int) (params : PrimerParamsInput)
    (hpos : 1 ≤ position) (hleft : 0 ≤ params.extension_left)
    (hright : 0 ≤ params.extension_right) :
    submit_primer_design_range_writes position params =
      [("primer5_start", max 1 (position - params.extension_left)),
       ("primer5_end", max 1 (position - 20)),
       ("primer3_start", position + 20),
       ("primer3_end", position + params.extension_right)] ∧
    ∀ kv ∈ submit_primer_design_range_writes position params, 1 ≤ kv.2 := by
  refine ⟨rfl, ?_⟩
  intro kv hkv
  simp only [submit_primer_design_range_writes, set_primer_range, List.mem_cons,
    List.mem_singleton, List.not_mem_nil, or_false] at hkv
  rcases hkv with rfl | rfl | rfl | rfl
  · exact le_max_left 1 _
  · exact le_max_left 1 _
  · simp only []
    omega
  · simp only []
    omega

/-- Witness for `c7_primer_range_windows` at position 100 with the default
parameters. -/
theorem c7_primer_range_windows_witness :
    (1 : Int) ≤ 100 ∧
    submit_primer_design_range_writes 100 {} =
      [("primer5_start", 1), ("primer5_end", 80),
       ("primer3_start", 120), ("primer3_end", 900)] := by
  constructor
  · decide
  · exact (c7_primer_range_windows 100 {} (by decide) (by decide) (by decide)).1.trans
      (by decide)

/-- Strategy-loop characterization: the loop returns the first strategy's
success, evaluates exactly the strategies up to and including the first
success (all of them when none succeeds), and fails with `none` exactly
when every strategy fails. -/
theorem findElementLoop_spec {α : Type} (dom : DomOracle α) (t : Nat) (wc : Bool)
    (l : List LocatorStrategy) :
    ((findElementLoop dom t wc l).1 = none ↔ ∀ s ∈ l, dom s t wc = none) ∧
    ((findElementLoop dom t wc l).1 = none → (findElementLoop dom t wc l).2 = l) ∧
    (∀ e, (findElementLoop dom t wc l).1 = some e →
      ∃ i, ∃ h : i < l.length, dom (l.get ⟨i, h⟩) t wc = some e ∧
        (∀ s ∈ l.take i, dom s t wc = none) ∧
        (findElementLoop dom t wc l).2 = l.take (i + 1)) := by
  induction l with
  | nil => simp [findElementLoop]
  | cons s rest ih =>
    rcases hdom : dom s t wc with _ | e0
    · have hstep : findElementLoop dom t wc (s :: rest) =
        ((findElementLoop dom t wc rest).1, s :: (findElementLoop dom t wc rest).2) := by
        simp [findElementLoop, hdom]
      refine ⟨?_, ?_, ?_⟩
      · rw [hstep]
        simp only [List.mem_cons]
        constructor
        · intro h s' hs'
          rcases hs' with rfl | hs'
          · exact hdom
          · exact (ih.1.mp h) s' hs'
        · intro h
          exact ih.1.mpr fun s' hs' => h s' (Or.inr hs')
      · intro h
        rw [hstep] at h ⊢
        simp only at h ⊢
        rw [ih.2.1 h]
      · intro e he
        rw [hstep] at he
        simp only at he
        obtain ⟨i, hi, hget, htaken, htr⟩ := ih.2.2 e he
        refine ⟨i + 1, by simpa using hi, ?_, ?_, ?_⟩
        · simpa using hget
        · intro s' hs'
          rcases (by simpa using hs' : s' = s ∨ s' ∈ rest.take i) with rfl | hs'
          · exact hdom
          · exact htaken s' hs'
        · rw [hstep]
          simp only [List.take_succ_cons]
          rw [htr]
    · have hstep : findElementLoop dom t wc (s :: rest) = (some e0, [s]) := by
        simp [findElementLoop, hdom]
      refine ⟨?_, ?_, ?_⟩
      · rw [hstep]
        simp only [reduceCtorEq, false_iff, not_forall]
        exact ⟨s, by simp, by simp [hdom]⟩
      · intro h
        rw [hstep] at h
        simp at h
      · intro e he
        rw [hstep] at he
        simp only at he
        obtain rfl : e0 = e := by simpa using he
        exact ⟨0, by simp, by simpa using hdom, by simp, by simp [hstep]⟩

/-- C6: element lookup tries the key's configured strategies strictly in
list order (each strategy's bounded wait is the oracle call receiving the
per-strategy timeout and the clickability flag); it returns the element of
the first succeeding strategy, having evaluated no strategy beyond it and
none belonging to another key, and returns `none` — not an exception —
exactly when every configured strategy for the key fails. -/
theorem c6_find_element_first_success {α : Type} (dom : DomOracle α)
    (element_key : String) (timeout : Nat) (wait_clickable : Bool) :
    (find_element dom element_key timeout wait_clickable = none ↔
      ∀ s ∈ strategiesFor element_key, dom s timeout wait_clickable = none) ∧
    (∀ s ∈ (find_element_traced dom element_key timeout wait_clickable).2,
      s ∈ strategiesFor element_key) ∧
    (find_element dom element_key timeout wait_clickable = none →
      (find_element_traced dom element_key timeout wait_clickable).2 =
        strategiesFor element_key) ∧
    (∀ e, find_element dom element_key timeout wait_clickable = some e →
      ∃ i, ∃ h : i < (strategiesFor element_key).length,
        dom ((strategiesFor element_key).get ⟨i, h⟩) timeout wait_clickable = some e ∧
        (∀ s ∈ (strategiesFor element_key).take i, dom s timeout wait_clickable = none) ∧
        (find_element_traced dom element_key timeout wait_clickable).2 =
          (strategiesFor element_key).take (i + 1)) := by
  have h := findElementLoop_spec dom timeout wait_clickable (strategiesFor element_key)
  refine ⟨h.1, ?_, h.2.1, h.2.2⟩
  intro s hs
  rcases hres : (findElementLoop dom timeout wait_clickable (strategiesFor element_key)).1
    with _ | e
  · rw [show (find_element_traced dom element_key timeout wait_clickable).2 =
        strategiesFor element_key from h.2.1 hres] at hs
    exact hs
  · obtain ⟨i, hi, _, _, htr⟩ := h.2.2 e hres
    rw [show (find_element_traced dom element_key timeout wait_clickable).2 =
        (strategiesFor element_key).take (i + 1) from htr] at hs
    exact List.take_subset _ _ hs

/-- Witness for `c6_find_element_first_success`: with a DOM in which only
the NAME strategy resolves, looking up `tm_min` succeeds via its second
strategy. -/
theorem c6_find_element_first_success_witness :
    find_element (fun s _ _ => if s.by_ = By.NAME then some 7 else none) "tm_min" 10 false
      = some 7 ∧
    (find_element_traced (fun s _ _ => if s.by_ = By.NAME then some 7 else none)
      "tm_min" 10 false).2 = (strategiesFor "tm_min").take 2 := by
  have h := (c6_find_element_first_success
    (fun s _ _ => if s.by_ = By.NAME then some 7 else none) "tm_min" 10 false).2.2.2
    7 (by decide)
  refine ⟨by decide, ?_⟩
  obtain ⟨i, hi, hget, htake, htr⟩ := h
  have hlen : (strategiesFor "tm_min").length = 2 := by decide
  rcases i with _ | _ | i
  · rw [show ((strategiesFor "tm_min").get ⟨0, hi⟩) = ⟨By.ID, "PRIMER_MIN_TM", "主要"⟩
      from rfl] at hget
    exact absurd hget (by decide)
  · rw [htr]
  · rw [hlen] at hi
    omega

/-- C5: `convert_hg19_to_hg38` is total over every backend behaviour
(including a raising lookup, whose exception is converted into an error
triple rather than propagated); its error field is non-null exactly when
no converted coordinate is produced; an uninitialized backend yields the
distinct "converter not initialized" error with no lookup issued; an empty
mapping yields the per-locus "no hg38 coordinate found" error with null
chromosome and position; and a successful lookup returns the first mapped
interval's chromosome with `chr` removed and lowercased, together with
that interval's position. -/
theorem c5_convert_error_semantics (svc : CoordinateServiceState)
    (chromosome : String) (position : Int) :
    ((convert_hg19_to_hg38 svc chromosome position).2.2.isSome ↔
      ((convert_hg19_to_hg38 svc chromosome position).1 = none ∧
       (convert_hg19_to_hg38 svc chromosome position).2.1 = none)) ∧
    (svc.liftover = none →
      convert_hg19_to_hg38_traced svc chromosome position =
        ((none, none, some ConvError.notInitialized), [])) ∧
    (∀ b, svc.liftover = some b →
      (b (formatChromForLiftover chromosome) position = LiftResult.intervals [] →
        convert_hg19_to_hg38 svc chromosome position =
          (none, none, some (ConvError.noCoordinate chromosome position))) ∧
      (∀ m, b (formatChromForLiftover chromosome) position = LiftResult.raises m →
        convert_hg19_to_hg38 svc chromosome position =
          (none, none, some (ConvError.conversionFailed m))) ∧
      (∀ c0 p0 rest,
        b (formatChromForLiftover chromosome) position =
          LiftResult.intervals ((c0, p0) :: rest) →
        convert_hg19_to_hg38 svc chromosome position =
          (some (pyLower (String.mk (stripChrAll c0.toList))), some p0, none))) := by
  rcases hsvc : svc.liftover with _ | b
  · refine ⟨?_, ?_, ?_⟩
    · simp [convert_hg19_to_hg38, convert_hg19_to_hg38_traced, hsvc]
    · intro _
      simp [convert_hg19_to_hg38_traced, hsvc]
    · intro b hb
      exact absurd hb (by simp)
  · refine ⟨?_, ?_, ?_⟩
    · rcases hres : b (formatChromForLiftover chromosome) position with l | m
      · rcases l with _ | ⟨⟨c0, p0⟩, rest⟩
        · simp [convert_hg19_to_hg38, convert_hg19_to_hg38_traced, hsvc, hres]
        · simp [convert_hg19_to_hg38, convert_hg19_to_hg38_traced, hsvc, hres]
      · simp [convert_hg19_to_hg38, convert_hg19_to_hg38_traced, hsvc, hres]
    · intro h
      exact absurd h (by simp)
    · intro b' hb'
      obtain rfl : b = b' := by simpa using hb'
      refine ⟨?_, ?_, ?_⟩
      · intro hres
        simp [convert_hg19_to_hg38, convert_hg19_to_hg38_traced, hsvc, hres]
      · intro m hres
        simp [convert_hg19_to_hg38, convert_hg19_to_hg38_traced, hsvc, hres]
      · intro c0 p0 rest hres
        simp [convert_hg19_to_hg38, convert_hg19_to_hg38_traced, hsvc, hres]

/-- Witness for `c5_convert_error_semantics`: an initialized backend with
no mapping for the locus yields the per-locus error, and the uninitialized
service yields the distinct initialization error without a lookup. -/
theorem c5_convert_error_semantics_witness :
    convert_hg19_to_hg38 { liftover := some fun _ _ => LiftResult.intervals [] } "1" 100 =
      (none, none, some (ConvError.noCoordinate "1" 100)) ∧
    convert_hg19_to_hg38_traced { liftover := none } "1" 100 =
      ((none, none, some ConvError.notInitialized), []) := by
  constructor
  · exact ((c5_convert_error_semantics
      { liftover := some fun _ _ => LiftResult.intervals [] } "1" 100).2.2
      (fun _ _ => LiftResult.intervals []) rfl).1 rfl
  · exact (c5_convert_error_semantics { liftover := none } "1" 100).2.1 rfl

/-- C1: a `start_batch_processing` call made while the task state is
`initializing`, `running` or `stopping` is rejected synchronously — the
only emitted signal is an error notification, no `taskStarted` is emitted,
and the controller state (task state, stop flag and every `ProcessingStats`
counter) is returned unchanged; conversely, a call that does start a batch
(emits `taskStarted`) can only have been made from `idle`, `completed` or
`error`, matching `can_start_new_task`. -/
theorem c1_start_rejected_while_active (env : BatchEnv) (orc : BatchOracle)
    (c : CtrlState) :
    (c.taskState = TaskState.initializing ∨ c.taskState = TaskState.running ∨
        c.taskState = TaskState.stopping →
      start_batch_processing env orc c =
        (c, [CtrlEvent.errorOccurred "任务冲突" "请等待当前任务完成"])) ∧
    (∀ s, can_start_new_task s = true ↔
      (s = TaskState.idle ∨ s = TaskState.completed ∨ s = TaskState.error)) ∧
    (CtrlEvent.taskStarted ∈ (start_batch_processing env orc c).2 →
      (c.taskState = TaskState.idle ∨ c.taskState = TaskState.completed ∨
       c.taskState = TaskState.error)) := by
  have hchar : ∀ s, can_start_new_task s = true ↔
      (s = TaskState.idle ∨ s = TaskState.completed ∨ s = TaskState.error) := by
    intro s
    cases s <;> simp [can_start_new_task]
  refine ⟨?_, hchar, ?_⟩
  · intro h
    have hno : can_start_new_task c.taskState = false := by
      rcases h with h | h | h <;> rw [h] <;> rfl
    simp [start_batch_processing, hno]
  · intro hmem
    by_cases hc : can_start_new_task c.taskState = true
    · exact (hchar c.taskState).mp hc
    · exfalso
      have hno : can_start_new_task c.taskState = false := by
        simpa using hc
      rw [show start_batch_processing env orc c =
          (c, [CtrlEvent.errorOccurred "任务冲突" "请等待当前任务完成"]) by
        simp [start_batch_processing, hno]] at hmem
      simp at hmem

/-- Witness for `c1_start_rejected_while_active`: starting while `running`
leaves the controller state untouched and emits only the error signal. -/
theorem c1_start_rejected_while_active_witness :
    start_batch_processing { input_text := "1 100", genome_version := "hg38/GRCh38" } {}
        { taskState := TaskState.running, coordInit := true } =
      ({ taskState := TaskState.running, coordInit := true },
       [CtrlEvent.errorOccurred "任务冲突" "请等待当前任务完成"]) :=
  (c1_start_rejected_while_active
    { input_text := "1 100", genome_version := "hg38/GRCh38" } {}
    { taskState := TaskState.running, coordInit := true }).1 (Or.inr (Or.inl rfl))

/-- Bound-check segments of the error list are empty iff the bound holds. -/
theorem iteNilSingleton {α : Type} (c : Bool) (x : α) :
    (if c then ([] : List α) else [x]) = [] ↔ c = true := by
  cases c <;> simp

/-- Validator segments of the error list are empty iff neither check
fires. -/
theorem iteSingletonNil {α : Type} (c1 c2 : Bool) (x y : α) :
    (if c1 then [x] else if c2 then [y] else ([] : List α)) = [] ↔
      c1 = false ∧ c2 = false := by
  cases c1 <;> cases c2 <;> simp

/-- Acceptance characterization of the pydantic model: construction
collects no errors iff every per-field bound and every cross-field
validator check holds. -/
theorem primerParamsErrors_eq_nil_iff (p : PrimerParamsInput) :
    PrimerParamsInput.primerParamsErrors p = [] ↔
      (p.allFieldBounds = true ∧ p.crossChecksOk = true) := by
  unfold PrimerParamsInput.primerParamsErrors
  simp only [List.append_eq_nil, iteNilSingleton, iteSingletonNil]
  simp only [PrimerParamsInput.allFieldBounds, PrimerParamsInput.crossChecksOk,
    PrimerParamsInput.pcrMinPresent, PrimerParamsInput.tmMinPresent,
    PrimerParamsInput.tmOptPresent, PrimerParamsInput.tmMaxPresent,
    PrimerParamsInput.primerMinPresent, PrimerParamsInput.primerOptPresent,
    Bool.and_eq_true, Bool.and_eq_false_iff, Bool.not_eq_true', Bool.not_eq_false',
    Bool.not_eq_true, decide_eq_true_eq, decide_eq_false_iff_not, not_le, not_lt]
  simp only [Bool.eq_false_iff, ← not_lt]
  tauto

/-- The claim's own invariant list (spec wording, for comparison with the
code's checks): product-size max > min, optimal Tm strictly between min
and max Tm, max Tm ≥ optimal Tm, Tm spread at least the configured
maximum difference, optimal primer length ≥ minimum, maximum primer
length ≥ optimal. -/
def statedInvariantsC4 (p : PrimerParamsInput) : Prop :=
  p.pcr_min < p.pcr_max ∧
  (p.tm_min < p.tm_opt ∧ p.tm_opt < p.tm_max) ∧
  p.tm_opt ≤ p.tm_max ∧
  (p.tm_max_difference : ℚ) ≤ p.tm_max - p.tm_min ∧
  p.primer_min_size ≤ p.primer_opt_size ∧
  p.primer_opt_size ≤ p.primer_max_size

instance (p : PrimerParamsInput) : Decidable (statedInvariantsC4 p) := by
  unfold statedInvariantsC4
  infer_instance

/-- C4 (counterexample to the claim as stated): with every other field at
its default, `pcr_min := 10` satisfies every stated cross-field invariant,
yet construction is rejected — pydantic also enforces the per-field range
bounds (here `50 ≤ pcr_min ≤ 30000`), so "rejected if and only if a stated
invariant is violated" fails in the only-if direction. -/
theorem c4_counterexample_field_bound_rejection :
    statedInvariantsC4 { pcr_min := 10 } ∧
    PrimerParamsInput.primerParamsErrors { pcr_min := 10 } =
      [("pcr_min", "50 <= pcr_min <= 30000")] ∧
    PrimerParamsInput.accepted { pcr_min := 10 } = false := by
  refine ⟨?_, ?_, ?_⟩
  · unfold statedInvariantsC4
    norm_num
  · norm_num [PrimerParamsInput.primerParamsErrors, PrimerParamsInput.pcrMinBound,
      PrimerParamsInput.pcrMaxBound, PrimerParamsInput.tmMinBound, PrimerParamsInput.tmOptBound,
      PrimerParamsInput.tmMaxBound, PrimerParamsInput.tmDiffBound,
      PrimerParamsInput.primerMinBound, PrimerParamsInput.primerOptBound,
      PrimerParamsInput.primerMaxBound, PrimerParamsInput.numReturnBound,
      PrimerParamsInput.endGcBound, PrimerParamsInput.polyXBound,
      PrimerParamsInput.extLeftBound, PrimerParamsInput.extRightBound,
      PrimerParamsInput.pcrMinPresent, PrimerParamsInput.tmMinPresent,
      PrimerParamsInput.tmOptPresent, PrimerParamsInput.tmMaxPresent,
      PrimerParamsInput.primerMinPresent, PrimerParamsInput.primerOptPresent]
  · norm_num [PrimerParamsInput.accepted, PrimerParamsInput.primerParamsErrors,
      PrimerParamsInput.pcrMinBound,
      PrimerParamsInput.pcrMaxBound, PrimerParamsInput.tmMinBound, PrimerParamsInput.tmOptBound,
      PrimerParamsInput.tmMaxBound, PrimerParamsInput.tmDiffBound,
      PrimerParamsInput.primerMinBound, PrimerParamsInput.primerOptBound,
      PrimerParamsInput.primerMaxBound, PrimerParamsInput.numReturnBound,
      PrimerParamsInput.endGcBound, PrimerParamsInput.polyXBound,
      PrimerParamsInput.extLeftBound, PrimerParamsInput.extRightBound,
      PrimerParamsInput.pcrMinPresent, PrimerParamsInput.tmMinPresent,
      PrimerParamsInput.tmOptPresent, PrimerParamsInput.tmMaxPresent,
      PrimerParamsInput.primerMinPresent, PrimerParamsInput.primerOptPresent]

/-- C4 (amended): for inputs satisfying every declared per-field range
bound, construction is accepted iff every stated cross-field invariant
holds (each collected error names the offending field and bound); in
particular `pcr_min = 100, pcr_max = 100` (other fields at defaults) is
rejected with an error naming `pcr_max`, and `pcr_min = 100,
pcr_max = 101` is accepted. -/
theorem c4_primer_params_validation (p : PrimerParamsInput)
    (hb : p.allFieldBounds = true) :
    (PrimerParamsInput.accepted p = true ↔ statedInvariantsC4 p) ∧
    PrimerParamsInput.accepted { pcr_min := 100, pcr_max := 100 } = false ∧
    PrimerParamsInput.primerParamsErrors { pcr_min := 100, pcr_max := 100 } =
      [("pcr_max", "PCR最大值必须大于最小值")] ∧
    PrimerParamsInput.accepted { pcr_min := 100, pcr_max := 101 } = true := by
  refine ⟨?_, ?_, ?_, ?_⟩
  · unfold PrimerParamsInput.accepted
    rw [decide_eq_true_eq, primerParamsErrors_eq_nil_iff]
    constructor
    · rintro ⟨_, hc⟩
      revert hc
      unfold PrimerParamsInput.crossChecksOk statedInvariantsC4
      simp only [Bool.and_eq_true, decide_eq_true_eq]
      rintro ⟨⟨⟨⟨⟨h1, h2⟩, h3⟩, h4⟩, h5⟩, h6⟩
      exact ⟨h1, ⟨h2, h3⟩, le_of_lt h3, h4, h5, h6⟩
    · intro hinv
      refine ⟨hb, ?_⟩
      unfold statedInvariantsC4 at hinv
      obtain ⟨h1, ⟨h2, h3⟩, _, h4, h5, h6⟩ := hinv
      unfold PrimerParamsInput.crossChecksOk
      simp only [Bool.and_eq_true, decide_eq_true_eq]
      exact ⟨⟨⟨⟨⟨h1, h2⟩, h3⟩, h4⟩, h5⟩, h6⟩
  · norm_num [PrimerParamsInput.accepted, PrimerParamsInput.primerParamsErrors,
      PrimerParamsInput.pcrMinBound,
      PrimerParamsInput.pcrMaxBound, PrimerParamsInput.tmMinBound, PrimerParamsInput.tmOptBound,
      PrimerParamsInput.tmMaxBound, PrimerParamsInput.tmDiffBound,
      PrimerParamsInput.primerMinBound, PrimerParamsInput.primerOptBound,
      PrimerParamsInput.primerMaxBound, PrimerParamsInput.numReturnBound,
      PrimerParamsInput.endGcBound, PrimerParamsInput.polyXBound,
      PrimerParamsInput.extLeftBound, PrimerParamsInput.extRightBound,
      PrimerParamsInput.pcrMinPresent, PrimerParamsInput.tmMinPresent,
      PrimerParamsInput.tmOptPresent, PrimerParamsInput.tmMaxPresent,
      PrimerParamsInput.primerMinPresent, PrimerParamsInput.primerOptPresent]
  · norm_num [PrimerParamsInput.primerParamsErrors, PrimerParamsInput.pcrMinBound,
      PrimerParamsInput.pcrMaxBound, PrimerParamsInput.tmMinBound, PrimerParamsInput.tmOptBound,
      PrimerParamsInput.tmMaxBound, PrimerParamsInput.tmDiffBound,
      PrimerParamsInput.primerMinBound, PrimerParamsInput.primerOptBound,
      PrimerParamsInput.primerMaxBound, PrimerParamsInput.numReturnBound,
      PrimerParamsInput.endGcBound, PrimerParamsInput.polyXBound,
      PrimerParamsInput.extLeftBound, PrimerParamsInput.extRightBound,
      PrimerParamsInput.pcrMinPresent, PrimerParamsInput.tmMinPresent,
      PrimerParamsInput.tmOptPresent, PrimerParamsInput.tmMaxPresent,
      PrimerParamsInput.primerMinPresent, PrimerParamsInput.primerOptPresent]
  · norm_num [PrimerParamsInput.accepted, PrimerParamsInput.primerParamsErrors,
      PrimerParamsInput.pcrMinBound,
      PrimerParamsInput.pcrMaxBound, PrimerParamsInput.tmMinBound, PrimerParamsInput.tmOptBound,
      PrimerParamsInput.tmMaxBound, PrimerParamsInput.tmDiffBound,
      PrimerParamsInput.primerMinBound, PrimerParamsInput.primerOptBound,
      PrimerParamsInput.primerMaxBound, PrimerParamsInput.numReturnBound,
      PrimerParamsInput.endGcBound, PrimerParamsInput.polyXBound,
      PrimerParamsInput.extLeftBound, PrimerParamsInput.extRightBound,
      PrimerParamsInput.pcrMinPresent, PrimerParamsInput.tmMinPresent,
      PrimerParamsInput.tmOptPresent, PrimerParamsInput.tmMaxPresent,
      PrimerParamsInput.primerMinPresent, PrimerParamsInput.primerOptPresent]

/-- Witness for `c4_primer_params_validation`: the default parameters
satisfy every field bound, and the acceptance equivalence applies to
them. -/
theorem c4_primer_params_validation_witness :
    PrimerParamsInput.allFieldBounds {} = true ∧
    (PrimerParamsInput.accepted {} = true ↔ statedInvariantsC4 {}) := by
  have hb : PrimerParamsInput.allFieldBounds {} = true := by
    norm_num [PrimerParamsInput.allFieldBounds, PrimerParamsInput.pcrMinBound,
      PrimerParamsInput.pcrMaxBound, PrimerParamsInput.tmMinBound, PrimerParamsInput.tmOptBound,
      PrimerParamsInput.tmMaxBound, PrimerParamsInput.tmDiffBound,
      PrimerParamsInput.primerMinBound, PrimerParamsInput.primerOptBound,
      PrimerParamsInput.primerMaxBound, PrimerParamsInput.numReturnBound,
      PrimerParamsInput.endGcBound, PrimerParamsInput.polyXBound,
      PrimerParamsInput.extLeftBound, PrimerParamsInput.extRightBound]
  exact ⟨hb, (c4_primer_params_validation {} hb).1⟩

/-- Chromosome-token normalisation as the specification words it: case
folding followed by removal of a leading `chr` prefix (only).  Used to
compare the claim's wording against the code's remove-all-occurrences
behaviour. -/
def specChromStrip (t : String) : String :=
  match (pyLower t).toList with
  | 'c' :: 'h' :: 'r' :: rest => String.mk rest
  | l => String.mk l

/-- C3 (counterexample to the claim as stated): on the line `"xchr 100"`
the first token, lowercased with its `chr` prefix stripped, is `"xchr"`,
which is not a supported chromosome — the claim therefore requires a
chromosome error — yet the code accepts the line with chromosome `"x"`,
because `replace("chr", "")` removes the substring `chr` anywhere in the
token, not only as a prefix. -/
theorem c3_counterexample_chr_not_prefix :
    parse_coordinate_line "xchr 100" = (some "x", some 100, none) ∧
    specChromStrip "xchr" = "xchr" ∧
    specChromStrip "xchr" ∉ ALLOWED_CHROMOSOMES := by
  refine ⟨by decide, by decide, by decide⟩

/-- C3 (amended): a line parses successfully iff it has at least two
whitespace-separated tokens, the first token — lowercased **with every
occurrence of the substring `chr` removed** (not only a leading prefix) —
is a supported chromosome, and the second token is an all-digit string
with positive value; on success the normalized chromosome and the integer
position are returned with no error, and on failure chromosome and
position are null and the error's category matches the failure: a
structural (format) error for fewer than two tokens (a blank line
included), a chromosome error for an unsupported normalized first token,
and a position error for a non-digit or zero-valued second token. -/
theorem c3_parse_line_characterization (line : String) :
    ((parse_coordinate_line line).2.2 = none ↔
      ∃ p0 p1 rest, pySplit (pyStrip line) = p0 :: p1 :: rest ∧
        chromNormalize p0 ∈ ALLOWED_CHROMOSOMES ∧ pyIsDigit p1 = true ∧
        0 < strToNat p1) ∧
    (∀ p0 p1 rest, pySplit (pyStrip line) = p0 :: p1 :: rest →
      chromNormalize p0 ∈ ALLOWED_CHROMOSOMES → pyIsDigit p1 = true →
      0 < strToNat p1 →
      parse_coordinate_line line =
        (some (chromNormalize p0), some ((strToNat p1 : Nat) : Int), none)) ∧
    (∀ e, (parse_coordinate_line line).2.2 = some e →
      (parse_coordinate_line line).1 = none ∧
      (parse_coordinate_line line).2.1 = none ∧
      (e.kind = ParseErrorKind.format ↔ (pySplit (pyStrip line)).length < 2) ∧
      (e.kind = ParseErrorKind.chromosome ↔
        2 ≤ (pySplit (pyStrip line)).length ∧
        chromNormalize ((pySplit (pyStrip line)).headD "") ∉ ALLOWED_CHROMOSOMES) ∧
      (e.kind = ParseErrorKind.position ↔
        2 ≤ (pySplit (pyStrip line)).length ∧
        chromNormalize ((pySplit (pyStrip line)).headD "") ∈ ALLOWED_CHROMOSOMES ∧
        (pyIsDigit ((pySplit (pyStrip line)).getD 1 "") = false ∨
         strToNat ((pySplit (pyStrip line)).getD 1 "") = 0))) := by
  by_cases hs : pyStrip line = ""
  · have hts : pySplit (pyStrip line) = [] := by
      rw [hs]
      rfl
    have hp : parse_coordinate_line line = (none, none, some ParseError.emptyLine) := by
      simp [parse_coordinate_line, hs]
    rw [hp, hts]
    refine ⟨by simp, ?_, ?_⟩
    · intro p0 p1 rest h
      cases h
    · intro e he
      obtain rfl : ParseError.emptyLine = e := by simpa using he
      refine ⟨rfl, rfl, by simp [ParseError.kind], by simp [ParseError.kind], ?_⟩
      simp [ParseError.kind]
  · rcases hts : pySplit (pyStrip line) with _ | ⟨p0, _ | ⟨p1, rest⟩⟩
    · have hp : parse_coordinate_line line = (none, none, some (ParseError.formatError 0)) := by
        simp [parse_coordinate_line, hs, hts]
      rw [hp]
      refine ⟨by simp, ?_, ?_⟩
      · intro p0 p1 rest h
        cases h
      · intro e he
        obtain rfl : ParseError.formatError 0 = e := by simpa using he
        refine ⟨rfl, rfl, by simp [ParseError.kind], by simp [ParseError.kind], ?_⟩
        simp [ParseError.kind]
    · have hp : parse_coordinate_line line = (none, none, some (ParseError.formatError 1)) := by
        simp [parse_coordinate_line, hs, hts]
      rw [hp]
      refine ⟨by simp, ?_, ?_⟩
      · intro p0' p1' rest' h
        cases h
      · intro e he
        obtain rfl : ParseError.formatError 1 = e := by simpa using he
        refine ⟨rfl, rfl, by simp [ParseError.kind], by simp [ParseError.kind], ?_⟩
        simp [ParseError.kind]
    · by_cases hchrom : chromNormalize p0 ∈ ALLOWED_CHROMOSOMES
      · by_cases hdig : pyIsDigit p1 = true
        · by_cases hval : (strToNat p1 : Int) ≤ 0
          · have hz : strToNat p1 = 0 := by omega
            have hp : parse_coordinate_line line =
                (none, none, some (ParseError.positionValueError ((strToNat p1 : Nat) : Int))) := by
              simp [parse_coordinate_line, hs, hts, hchrom, hdig, hval]
            rw [hp]
            refine ⟨?_, ?_, ?_⟩
            · simp only [Prod.snd, reduceCtorEq, false_iff, not_exists]
              intro a b l h
              obtain ⟨heq, _, _, hpos⟩ := h
              obtain ⟨rfl, rfl, rfl⟩ : p0 = a ∧ p1 = b ∧ rest = l := by
                simpa using heq
              omega
            · intro a b l h
              obtain ⟨rfl, rfl, rfl⟩ : a = p0 ∧ b = p1 ∧ l = rest := by
                simpa using h.symm
              intro _ _ hpos
              omega
            · intro e he
              obtain rfl : ParseError.positionValueError ((strToNat p1 : Nat) : Int) = e := by
                simpa using he
              refine ⟨rfl, rfl, by simp [ParseError.kind], by simp [ParseError.kind, hchrom], ?_⟩
              simp [ParseError.kind, hchrom, hz]
          · have hp : parse_coordinate_line line =
                (some (chromNormalize p0), some ((strToNat p1 : Nat) : Int), none) := by
              simp [parse_coordinate_line, hs, hts, hchrom, hdig, hval]
            rw [hp]
            refine ⟨?_, ?_, ?_⟩
            · simp only [true_iff]
              exact ⟨p0, p1, rest, rfl, hchrom, hdig, by omega⟩
            · intro a b l h
              obtain ⟨rfl, rfl, rfl⟩ : a = p0 ∧ b = p1 ∧ l = rest := by
                simpa using h.symm
              intro _ _ _
              rfl
            · intro e he
              cases he
        · have hp : parse_coordinate_line line =
                (none, none, some (ParseError.positionFormatError p1)) := by
              simp [parse_coordinate_line, hs, hts, hchrom, hdig]
          rw [hp]
          refine ⟨?_, ?_, ?_⟩
          · simp only [Prod.snd, reduceCtorEq, false_iff, not_exists]
            intro a b l h
            obtain ⟨heq, _, hd, _⟩ := h
            obtain ⟨rfl, rfl, rfl⟩ : p0 = a ∧ p1 = b ∧ rest = l := by
              simpa using heq
            exact hdig hd
          · intro a b l h
            obtain ⟨rfl, rfl, rfl⟩ : a = p0 ∧ b = p1 ∧ l = rest := by
              simpa using h.symm
            intro _ hd _
            exact absurd hd hdig
          · intro e he
            obtain rfl : ParseError.positionFormatError p1 = e := by simpa using he
            refine ⟨rfl, rfl, by simp [ParseError.kind], by simp [ParseError.kind, hchrom], ?_⟩
            have hd' : pyIsDigit p1 = false := by
              simpa using hdig
            simp [ParseError.kind, hchrom, hd']
      · have hp : parse_coordinate_line line =
            (none, none, some (ParseError.chromosomeError (chromNormalize p0))) := by
          simp [parse_coordinate_line, hs, hts, hchrom]
        rw [hp]
        refine ⟨?_, ?_, ?_⟩
        · simp only [Prod.snd, reduceCtorEq, false_iff, not_exists]
          intro a b l h
          obtain ⟨heq, hc, _, _⟩ := h
          obtain ⟨rfl, rfl, rfl⟩ : p0 = a ∧ p1 = b ∧ rest = l := by
            simpa using heq
          exact hchrom hc
        · intro a b l h
          obtain ⟨rfl, rfl, rfl⟩ : a = p0 ∧ b = p1 ∧ l = rest := by
            simpa using h.symm
          intro hc _ _
          exact absurd hc hchrom
        · intro e he
          obtain rfl : ParseError.chromosomeError (chromNormalize p0) = e := by
            simpa using he
          refine ⟨rfl, rfl, by simp [ParseError.kind], by simp [ParseError.kind, hchrom], ?_⟩
          simp [ParseError.kind, hchrom]

/-- Witness for `c3_parse_line_characterization`: the well-formed line
`"chr1 123"` parses to chromosome `"1"`, position 123, no error. -/
theorem c3_parse_line_characterization_witness :
    parse_coordinate_line "chr1 123" = (some "1", some 123, none) := by
  have h := (c3_parse_line_characterization "chr1 123").2.1 "chr1" "123" []
    (by decide) (by decide) (by decide) (by decide)
  rw [h]
  decide

/-- Valid record built by `validate_coordinates_batch` for stripped line
`s` at index `idx`. -/
def mkValidRecord (idx : Nat) (s : String) : CoordinateValidationResult :=
  { line_number := idx, original_line := s, is_valid := true,
    chromosome := (parse_coordinate_line s).1,
    position := (parse_coordinate_line s).2.1 }

/-- Invalid record built by `validate_coordinates_batch` for stripped line
`s` at index `idx`. -/
def mkInvalidRecord (idx : Nat) (s : String) : CoordinateValidationResult :=
  { line_number := idx, original_line := s, is_valid := false,
    error_message := (parse_coordinate_line s).2.2 }

/-- Unfolding lemma: a blank line contributes nothing. -/
theorem validateBatchAux_cons_blank (idx : Nat) (l : String) (rest : List String)
    (h : pyStrip l = "") :
    validateBatchAux idx (l :: rest) = validateBatchAux (idx + 1) rest := by
  rcases hvi : validateBatchAux (idx + 1) rest with ⟨v, iv⟩
  simp [validateBatchAux, h, hvi]

/-- Unfolding lemma: a non-blank line that fails to parse prepends an
invalid record carrying its 1-based index. -/
theorem validateBatchAux_cons_invalid (idx : Nat) (l : String) (rest : List String)
    (hb : ¬pyStrip l = "")
    (he : (parse_coordinate_line (pyStrip l)).2.2.isSome = true) :
    validateBatchAux idx (l :: rest) =
      ((validateBatchAux (idx + 1) rest).1,
       mkInvalidRecord idx (pyStrip l) :: (validateBatchAux (idx + 1) rest).2) := by
  rcases hvi : validateBatchAux (idx + 1) rest with ⟨v, iv⟩
  simp [validateBatchAux, mkInvalidRecord, hb, he, hvi]

/-- Unfolding lemma: a non-blank line that parses prepends a valid record
carrying its 1-based index. -/
theorem validateBatchAux_cons_valid (idx : Nat) (l : String) (rest : List String)
    (hb : ¬pyStrip l = "")
    (he : (parse_coordinate_line (pyStrip l)).2.2.isSome = false) :
    validateBatchAux idx (l :: rest) =
      (mkValidRecord idx (pyStrip l) :: (validateBatchAux (idx + 1) rest).1,
       (validateBatchAux (idx + 1) rest).2) := by
  rcases hvi : validateBatchAux (idx + 1) rest with ⟨v, iv⟩
  simp [validateBatchAux, mkValidRecord, hb, he, hvi]

/-- Invariants of the validation loop from line index `idx`: the two lists
partition the non-blank lines; every record points back to its line (its
number is `idx` plus the line's offset, and its text is that line,
stripped); line numbers are at least `idx`, strictly increasing within
each list, and never shared across the two lists. -/
theorem validateBatchAux_spec (ls : List String) : ∀ idx : Nat,
    ((validateBatchAux idx ls).1.length + (validateBatchAux idx ls).2.length =
      ls.countP fun l => !(pyStrip l == "")) ∧
    (∀ r ∈ (validateBatchAux idx ls).1, ∃ j, j < ls.length ∧ r.line_number = idx + j ∧
      r.original_line = pyStrip (ls.getD j "") ∧ r.is_valid = true) ∧
    (∀ r ∈ (validateBatchAux idx ls).2, ∃ j, j < ls.length ∧ r.line_number = idx + j ∧
      r.original_line = pyStrip (ls.getD j "") ∧ r.is_valid = false) ∧
    (∀ r ∈ (validateBatchAux idx ls).1, idx ≤ r.line_number) ∧
    (∀ r ∈ (validateBatchAux idx ls).2, idx ≤ r.line_number) ∧
    List.Pairwise (fun a b => a.line_number < b.line_number) (validateBatchAux idx ls).1 ∧
    List.Pairwise (fun a b => a.line_number < b.line_number) (validateBatchAux idx ls).2 ∧
    (∀ r ∈ (validateBatchAux idx ls).1, ∀ q ∈ (validateBatchAux idx ls).2,
      r.line_number ≠ q.line_number) := by
  induction ls with
  | nil =>
    intro idx
    simp [validateBatchAux]
  | cons l rest ih =>
    intro idx
    obtain ⟨ihLen, ihV, ihIV, ihVlb, ihIVlb, ihVsort, ihIVsort, ihCross⟩ := ih (idx + 1)
    by_cases hb : pyStrip l = ""
    · rw [validateBatchAux_cons_blank idx l rest hb]
      refine ⟨?_, ?_, ?_, ?_, ?_, ihVsort, ihIVsort, ihCross⟩
      · rw [ihLen, List.countP_cons]
        simp [hb]
      · intro r hr
        obtain ⟨j, hj, hn, ho, hv⟩ := ihV r hr
        exact ⟨j + 1, by simpa using hj, by omega, by simpa using ho, hv⟩
      · intro r hr
        obtain ⟨j, hj, hn, ho, hv⟩ := ihIV r hr
        exact ⟨j + 1, by simpa using hj, by omega, by simpa using ho, hv⟩
      · intro r hr
        exact le_trans (Nat.le_succ idx) (ihVlb r hr)
      · intro r hr
        exact le_trans (Nat.le_succ idx) (ihIVlb r hr)
    · have hpl : (!(pyStrip l == "")) = true := by
        simpa using hb
      rcases he : (parse_coordinate_line (pyStrip l)).2.2.isSome with _ | _
      · rw [validateBatchAux_cons_valid idx l rest hb he]
        refine ⟨?_, ?_, ?_, ?_, ?_, ?_, ihIVsort, ?_⟩
        · simp only [List.length_cons, List.countP_cons, hpl, if_true]
          omega
        · intro r hr
          have hr2 : r = mkValidRecord idx (pyStrip l) ∨
              r ∈ (validateBatchAux (idx + 1) rest).1 := by
            simpa using hr
          rcases hr2 with rfl | hr'
          · exact ⟨0, by simp, by simp [mkValidRecord], by simp [mkValidRecord],
              by simp [mkValidRecord]⟩
          · obtain ⟨j, hj, hn, ho, hv⟩ := ihV r hr'
            exact ⟨j + 1, by simpa using hj, by omega, by simpa using ho, hv⟩
        · intro r hr
          obtain ⟨j, hj, hn, ho, hv⟩ := ihIV r hr
          exact ⟨j + 1, by simpa using hj, by omega, by simpa using ho, hv⟩
        · intro r hr
          have hr2 : r = mkValidRecord idx (pyStrip l) ∨
              r ∈ (validateBatchAux (idx + 1) rest).1 := by
            simpa using hr
          rcases hr2 with rfl | hr'
          · simp [mkValidRecord]
          · exact le_trans (Nat.le_succ idx) (ihVlb r hr')
        · intro r hr
          exact le_trans (Nat.le_succ idx) (ihIVlb r hr)
        · refine List.Pairwise.cons ?_ ihVsort
          intro b hbmem
          have hlb := ihVlb b hbmem
          show (mkValidRecord idx (pyStrip l)).line_number < b.line_number
          simp only [mkValidRecord]
          omega
        · intro r hr q hq
          have hr2 : r = mkValidRecord idx (pyStrip l) ∨
              r ∈ (validateBatchAux (idx + 1) rest).1 := by
            simpa using hr
          rcases hr2 with rfl | hr'
          · have hlb := ihIVlb q hq
            show (mkValidRecord idx (pyStrip l)).line_number ≠ q.line_number
            simp only [mkValidRecord]
            omega
          · exact ihCross r hr' q hq
      · rw [validateBatchAux_cons_invalid idx l rest hb he]
        refine ⟨?_, ?_, ?_, ?_, ?_, ihVsort, ?_, ?_⟩
        · simp only [List.length_cons, List.countP_cons, hpl, if_true]
          omega
        · intro r hr
          obtain ⟨j, hj, hn, ho, hv⟩ := ihV r hr
          exact ⟨j + 1, by simpa using hj, by omega, by simpa using ho, hv⟩
        · intro r hr
          have hr2 : r = mkInvalidRecord idx (pyStrip l) ∨
              r ∈ (validateBatchAux (idx + 1) rest).2 := by
            simpa using hr
          rcases hr2 with rfl | hr'
          · exact ⟨0, by simp, by simp [mkInvalidRecord], by simp [mkInvalidRecord],
              by simp [mkInvalidRecord]⟩
          · obtain ⟨j, hj, hn, ho, hv⟩ := ihIV r hr'
            exact ⟨j + 1, by simpa using hj, by omega, by simpa using ho, hv⟩
        · intro r hr
          exact le_trans (Nat.le_succ idx) (ihVlb r hr)
        · intro r hr
          have hr2 : r = mkInvalidRecord idx (pyStrip l) ∨
              r ∈ (validateBatchAux (idx + 1) rest).2 := by
            simpa using hr
          rcases hr2 with rfl | hr'
          · simp [mkInvalidRecord]
          · exact le_trans (Nat.le_succ idx) (ihIVlb r hr')
        · refine List.Pairwise.cons ?_ ihIVsort
          intro b hbmem
          have hlb := ihIVlb b hbmem
          show (mkInvalidRecord idx (pyStrip l)).line_number < b.line_number
          simp only [mkInvalidRecord]
          omega
        · intro r hr q hq
          have hq2 : q = mkInvalidRecord idx (pyStrip l) ∨
              q ∈ (validateBatchAux (idx + 1) rest).2 := by
            simpa using hq
          rcases hq2 with rfl | hq'
          · have hlb := ihVlb r hr
            show r.line_number ≠ (mkInvalidRecord idx (pyStrip l)).line_number
            simp only [mkInvalidRecord]
            omega
          · exact ihCross r hr q hq'

/-- C2: batch validation partitions exactly the non-blank lines — the two
result lists' lengths sum to the number of non-blank lines; every record's
`line_number` is the 1-based position of its line among all lines (blank
lines counted in the numbering but producing no record) and is unique
across the two lists; and within each list, records appear in input line
order (line numbers strictly increase). -/
theorem c2_validate_batch_partition (text genome_version : String) :
    ((validate_coordinates_batch text genome_version).1.length +
      (validate_coordinates_batch text genome_version).2.length =
      (pySplitlines text).countP fun l => !(pyStrip l == "")) ∧
    (∀ r ∈ (validate_coordinates_batch text genome_version).1 ++
        (validate_coordinates_batch text genome_version).2,
      ∃ j, j < (pySplitlines text).length ∧ r.line_number = 1 + j ∧
        r.original_line = pyStrip ((pySplitlines text).getD j "")) ∧
    (((validate_coordinates_batch text genome_version).1 ++
        (validate_coordinates_batch text genome_version).2).map
      (fun r => r.line_number)).Nodup ∧
    List.Pairwise (fun a b => a.line_number < b.line_number)
      (validate_coordinates_batch text genome_version).1 ∧
    List.Pairwise (fun a b => a.line_number < b.line_number)
      (validate_coordinates_batch text genome_version).2 := by
  obtain ⟨hLen, hV, hIV, _, _, hVsort, hIVsort, hCross⟩ :=
    validateBatchAux_spec (pySplitlines text) 1
  refine ⟨hLen, ?_, ?_, hVsort, hIVsort⟩
  · intro r hr
    rcases List.mem_append.mp hr with h | h
    · obtain ⟨j, hj, hn, ho, _⟩ := hV r h
      exact ⟨j, hj, hn, ho⟩
    · obtain ⟨j, hj, hn, ho, _⟩ := hIV r h
      exact ⟨j, hj, hn, ho⟩
  · rw [List.map_append, List.nodup_append]
    refine ⟨?_, ?_, ?_⟩
    · exact (List.pairwise_map).mpr (hVsort.imp fun h => Nat.ne_of_lt h)
    · exact (List.pairwise_map).mpr (hIVsort.imp fun h => Nat.ne_of_lt h)
    · intro a ha hb
      obtain ⟨r, hr, rfl⟩ := List.mem_map.mp ha
      obtain ⟨q, hq, hqeq⟩ := List.mem_map.mp hb
      exact hCross r hr q hq hqeq.symm

/-- Witness for `c2_validate_batch_partition` on the spec's end-to-end
example input: two valid lines plus one invalid line, three non-blank
lines in total. -/
theorem c2_validate_batch_partition_witness :
    (validate_coordinates_batch "chr1 100\nfoo 200\nX 300" "hg19/GRCh37").1.length +
      (validate_coordinates_batch "chr1 100\nfoo 200\nX 300" "hg19/GRCh37").2.length = 3 :=
  (c2_validate_batch_partition "chr1 100\nfoo 200\nX 300" "hg19/GRCh37").1.trans (by decide)

/-- Record built by `_parse_without_validation` for stripped line `s` at
index `idx`, first token `p0` and parsed position `pos`. -/
def mkSkipRecord (idx : Nat) (s : String) (p0 : String) (pos : Int) :
    CoordinateValidationResult :=
  { line_number := idx, original_line := s, is_valid := true,
    chromosome := some (chromNormalize p0), position := some pos }

/-- A line whose per-line best-effort parse succeeds contributes its record
to `_parse_without_validation`'s output. -/
theorem parseNoValidationAux_mem (ls : List String) : ∀ idx j r, j < ls.length →
    parseNoValidationLine (idx + j) (ls.getD j "") = some r →
    r ∈ parseNoValidationAux idx ls := by
  induction ls with
  | nil =>
    intro idx j r hj
    simp at hj
  | cons l rest ih =>
    intro idx j r hj hp
    cases j with
    | zero =>
      have hp0 : parseNoValidationLine idx l = some r := by
        simpa using hp
      simp [parseNoValidationAux, hp0]
    | succ j' =>
      have hmem := ih (idx + 1) j' r (by simpa using hj)
        (by rw [show idx + 1 + j' = idx + (j' + 1) by omega]; simpa using hp)
      rcases hline : parseNoValidationLine idx l with _ | r0
      · simpa [parseNoValidationAux, hline] using hmem
      · simp [parseNoValidationAux, hline]
        exact Or.inr hmem

/-- C10: with skip-validation requested, the best-effort parse accepts
every non-blank line having at least two tokens whose second token parses
as a Python int (signs, zero and negative values included), marking the
record valid with the normalized first token as chromosome and no
membership check against the supported set; consequently records with an
arbitrary chromosome string and a non-positive position enter the batch
list — which the validated path can never produce. -/
theorem c10_skip_validation_unchecked (text : String) :
    (∀ idx line p0 p1 rest pos, pySplit (pyStrip line) = p0 :: p1 :: rest →
      pyIntOfString? p1 = some pos →
      parseNoValidationLine idx line = some (mkSkipRecord idx (pyStrip line) p0 pos)) ∧
    (∀ j p0 p1 rest pos, j < (pySplitlines text).length →
      pySplit (pyStrip ((pySplitlines text).getD j "")) = p0 :: p1 :: rest →
      pyIntOfString? p1 = some pos →
      mkSkipRecord (1 + j) (pyStrip ((pySplitlines text).getD j "")) p0 pos ∈
        parse_without_validation text) ∧
    (parse_without_validation "foo -5" = [mkSkipRecord 1 "foo -5" "foo" (-5)] ∧
      chromNormalize "foo" ∉ ALLOWED_CHROMOSOMES ∧ (-5 : Int) ≤ 0) ∧
    (∀ line c p, parse_coordinate_line line = (some c, some p, none) →
      c ∈ ALLOWED_CHROMOSOMES ∧ 0 < p) := by
  have hline : ∀ idx line p0 p1 rest pos, pySplit (pyStrip line) = p0 :: p1 :: rest →
      pyIntOfString? p1 = some pos →
      parseNoValidationLine idx line = some (mkSkipRecord idx (pyStrip line) p0 pos) := by
    intro idx line p0 p1 rest pos hts hint
    have hs : ¬pyStrip line = "" := by
      intro hs
      rw [hs, show pySplit "" = [] from rfl] at hts
      cases hts
    simp [parseNoValidationLine, mkSkipRecord, hs, hts, hint]
  refine ⟨hline, ?_, ?_, ?_⟩
  · intro j p0 p1 rest pos hj hts hint
    exact parseNoValidationAux_mem (pySplitlines text) 1 j _ hj
      (hline (1 + j) _ p0 p1 rest pos hts hint)
  · exact ⟨by decide, by decide, by decide⟩
  · intro line c p h
    by_cases hs : pyStrip line = ""
    · simp [parse_coordinate_line, hs] at h
    · rcases hts : pySplit (pyStrip line) with _ | ⟨p0, _ | ⟨p1, rest⟩⟩
      · simp [parse_coordinate_line, hs, hts] at h
      · simp [parse_coordinate_line, hs, hts] at h
      · by_cases hchrom : chromNormalize p0 ∈ ALLOWED_CHROMOSOMES
        · by_cases hdig : pyIsDigit p1 = true
          · by_cases hval : (strToNat p1 : Int) ≤ 0
            · simp [parse_coordinate_line, hs, hts, hchrom, hdig, hval] at h
            · have hres : parse_coordinate_line line =
                  (some (chromNormalize p0), some ((strToNat p1 : Nat) : Int), none) := by
                simp [parse_coordinate_line, hs, hts, hchrom, hdig, hval]
              rw [hres] at h
              obtain ⟨hc, hp, -⟩ : some (chromNormalize p0) = some c ∧
                  some ((strToNat p1 : Nat) : Int) = some p ∧ (none : Option ParseError) = none := by
                simpa using h
              obtain rfl : chromNormalize p0 = c := by simpa using hc
              obtain rfl : ((strToNat p1 : Nat) : Int) = p := by simpa using hp
              exact ⟨hchrom, by omega⟩
          · simp [parse_coordinate_line, hs, hts, hchrom, hdig] at h
        · simp [parse_coordinate_line, hs, hts, hchrom] at h

/-- Witness for `c10_skip_validation_unchecked`: the line `"foo -5"` — an
unsupported chromosome token with a negative position — produces a record
in the skip-validation output. -/
theorem c10_skip_validation_unchecked_witness :
    mkSkipRecord 1 (pyStrip "foo -5") "foo" (-5) ∈ parse_without_validation "foo -5" :=
  (c10_skip_validation_unchecked "foo -5").2.1 0 "foo" "-5" [] (-5)
    (by decide) (by decide) (by decide)

/-- One loop iteration past an unobserved stop flag and a healthy (or
restartable) browser recurses on the remaining items. -/
theorem runItems_step (orc : BatchOracle) (i m : Nat) (c : CtrlState)
    (hseen : stopSeen orc.stopArrival i = false)
    (hguard : (!orc.driverAliveAt i && !orc.browserReadyAt i) = false) :
    runItems orc i (m + 1) c =
      ((runItems orc (i + 1) m { c with stats := itemStatsUpdate orc i c.stats }).1,
       CtrlEvent.statsUpdated (itemStatsUpdate orc i c.stats) ::
         (runItems orc (i + 1) m { c with stats := itemStatsUpdate orc i c.stats }).2) := by
  rcases hrec : runItems orc (i + 1) m { c with stats := itemStatsUpdate orc i c.stats }
    with ⟨c', evs⟩
  simp [runItems, hseen, hguard, hrec]

/-- The stats update increments `processed` by exactly one. -/
theorem itemStatsUpdate_processed (orc : BatchOracle) (i : Nat) (st : ProcessingStats) :
    (itemStatsUpdate orc i st).processed = st.processed + 1 := by
  unfold itemStatsUpdate
  rcases orc.itemSucceeds i with _ | _ <;> simp

/-- A stop request observed at the boundary of a remaining item halts the
loop there: the task state ends `idle`, `processed` grew by exactly the
number of items handled before the stop boundary, the stopped notification
is emitted and no completed notification is. -/
theorem runItems_stop_mid (orc : BatchOracle) (k : Nat)
    (hk : orc.stopArrival = some k) :
    ∀ n i c, i ≤ k → k < i + n →
    (∀ j, i ≤ j → j < k → (orc.driverAliveAt j = true ∨ orc.browserReadyAt j = true)) →
    (runItems orc i n c).1.taskState = TaskState.idle ∧
    (runItems orc i n c).1.stats.processed = c.stats.processed + (k - i) ∧
    CtrlEvent.taskStopped ∈ (runItems orc i n c).2 ∧
    (∀ st, CtrlEvent.taskCompleted st ∉ (runItems orc i n c).2) := by
  intro n
  induction n with
  | zero =>
    intro i c hik hkn
    omega
  | succ m ih =>
    intro i c hik hkn hbr
    by_cases hstop : k ≤ i
    · obtain rfl : k = i := le_antisymm hstop hik
      have hseen : stopSeen orc.stopArrival k = true := by
        simp [stopSeen, hk]
      simp [runItems, hseen]
    · have hseen : stopSeen orc.stopArrival i = false := by
        simp only [stopSeen, hk, decide_eq_false_iff_not]
        omega
      have hguard : (!orc.driverAliveAt i && !orc.browserReadyAt i) = false := by
        rcases hbr i le_rfl (by omega) with h | h <;> simp [h]
      rw [runItems_step orc i m c hseen hguard]
      obtain ⟨hstate, hproc, hmem, hncomp⟩ :=
        ih (i + 1) { c with stats := itemStatsUpdate orc i c.stats }
          (by omega) (by omega) (fun j hj1 hj2 => hbr j (by omega) hj2)
      refine ⟨hstate, ?_, by simp [hmem], ?_⟩
      · rw [hproc]
        simp only [itemStatsUpdate_processed]
        omega
      · intro st
        simp only [List.mem_cons, not_or]
        exact ⟨by simp, hncomp st⟩

/-- A stop request that arrives only during the final item (after its
boundary check) lets the loop exhaust: the post-loop completion branch is
skipped, no stopped or completed notification is emitted, and the task
state remains `stopping` — the value `stop_processing` wrote at arrival. -/
theorem runItems_stop_last (orc : BatchOracle) (k : Nat)
    (hk : orc.stopArrival = some k) :
    ∀ n i c, k = i + n →
    (∀ j, i ≤ j → j < k → (orc.driverAliveAt j = true ∨ orc.browserReadyAt j = true)) →
    (runItems orc i n c).1.taskState = TaskState.stopping ∧
    CtrlEvent.taskStopped ∉ (runItems orc i n c).2 ∧
    (∀ st, CtrlEvent.taskCompleted st ∉ (runItems orc i n c).2) := by
  intro n
  induction n with
  | zero =>
    intro i c hkn hbr
    have hseen : stopSeen orc.stopArrival i = true := by
      simp only [stopSeen, hk, decide_eq_true_eq]
      omega
    simp [runItems, hseen]
  | succ m ih =>
    intro i c hkn hbr
    have hseen : stopSeen orc.stopArrival i = false := by
      simp only [stopSeen, hk, decide_eq_false_iff_not]
      omega
    have hguard : (!orc.driverAliveAt i && !orc.browserReadyAt i) = false := by
      rcases hbr i le_rfl (by omega) with h | h <;> simp [h]
    rw [runItems_step orc i m c hseen hguard]
    obtain ⟨hstate, hnstop, hncomp⟩ :=
      ih (i + 1) { c with stats := itemStatsUpdate orc i c.stats }
        (by omega) (fun j hj1 hj2 => hbr j (by omega) hj2)
    refine ⟨hstate, ?_, ?_⟩
    · simp only [List.mem_cons, not_or]
      exact ⟨by simp, hnstop⟩
    · intro st
      simp only [List.mem_cons, not_or]
      exact ⟨by simp, hncomp st⟩

/-- Controller state at loop entry for a batch of `n` valid records. -/
def loopStartState (c : CtrlState) (n : Nat) : CtrlState :=
  { c with
    taskState := TaskState.running
    shouldStop := false
    coordInit := true
    stats := { total := n } }

/-- When the start guard passes, the coordinate service is (or becomes)
initialized, some record is valid and the browser is ready, the batch
reaches the running loop over the valid records. -/
theorem start_batch_reaches_loop (env : BatchEnv) (orc : BatchOracle) (c : CtrlState)
    (hcan : can_start_new_task c.taskState = true)
    (hcoord : (!c.coordInit && !env.coordInitOk) = false)
    (hvalid : (validResultsOf env).isEmpty = false)
    (hready : orc.ensureReadyInitial = true) :
    start_batch_processing env orc c =
      ((runItems orc 0 (validResultsOf env).length
          (loopStartState c (validResultsOf env).length)).1,
       [CtrlEvent.taskStarted,
        CtrlEvent.statsUpdated { total := (validResultsOf env).length },
        CtrlEvent.progressUpdated "开始处理"] ++
       (runItems orc 0 (validResultsOf env).length
          (loopStartState c (validResultsOf env).length)).2) := by
  rcases hrec : runItems orc 0 (validResultsOf env).length
      (loopStartState c (validResultsOf env).length) with ⟨c5, evs⟩
  simp only [loopStartState] at hrec
  simp only [start_batch_processing, hcan, hcoord, hvalid, hready, loopStartState,
    Bool.not_true, Bool.false_eq_true, if_false, if_true, Bool.not_false]
  simp [hrec]

/-- C8 (counterexample to the claim as stated): batch of one item, stop
requested while the item is being processed (while the state is `running`,
after the item's stop-flag check).  The loop exhausts, the completion
branch is skipped because `should_stop` is set, and the task state ends at
`stopping` — the value `stop_processing` wrote — not `idle`, with no
stopped notification emitted. -/
theorem c8_counterexample_stop_during_last_item :
    ((start_batch_processing
        { input_text := "1 100", genome_version := "hg38/GRCh38" }
        { stopArrival := some 1 }
        { taskState := TaskState.idle, coordInit := true }).1.taskState =
      TaskState.stopping) ∧
    TaskState.stopping ≠ TaskState.idle ∧
    CtrlEvent.taskStopped ∉
      (start_batch_processing
        { input_text := "1 100", genome_version := "hg38/GRCh38" }
        { stopArrival := some 1 }
        { taskState := TaskState.idle, coordInit := true }).2 := by
  refine ⟨by decide, by decide, by decide⟩

/-- C8 (amended): for a batch that reaches its running loop, a stop
request observed at the boundary of a remaining item (arriving before that
item's stop-flag check, with no browser-restart failure among the earlier
items) halts the loop at that boundary with the task state ending `idle`,
the stopped notification emitted and no completed notification; a stop
request arriving only during the final item (after the last boundary
check) instead lets the loop exhaust with no stopped or completed
notification, the task state ending `stopping`. -/
theorem c8_stop_transitions (env : BatchEnv) (orc : BatchOracle) (c : CtrlState) (k : Nat)
    (hk : orc.stopArrival = some k)
    (hcan : can_start_new_task c.taskState = true)
    (hcoord : (!c.coordInit && !env.coordInitOk) = false)
    (hvalid : (validResultsOf env).isEmpty = false)
    (hready : orc.ensureReadyInitial = true)
    (hbr : ∀ j, j < k → (orc.driverAliveAt j = true ∨ orc.browserReadyAt j = true)) :
    (k < (validResultsOf env).length →
      (start_batch_processing env orc c).1.taskState = TaskState.idle ∧
      CtrlEvent.taskStopped ∈ (start_batch_processing env orc c).2 ∧
      (∀ st, CtrlEvent.taskCompleted st ∉ (start_batch_processing env orc c).2)) ∧
    (k = (validResultsOf env).length →
      (start_batch_processing env orc c).1.taskState = TaskState.stopping ∧
      CtrlEvent.taskStopped ∉ (start_batch_processing env orc c).2 ∧
      (∀ st, CtrlEvent.taskCompleted st ∉ (start_batch_processing env orc c).2)) := by
  rw [start_batch_reaches_loop env orc c hcan hcoord hvalid hready]
  constructor
  · intro hkn
    obtain ⟨hstate, _, hmem, hncomp⟩ := runItems_stop_mid orc k hk
      (validResultsOf env).length 0 (loopStartState c (validResultsOf env).length)
      (by omega) (by omega) (fun j hj1 hj2 => hbr j hj2)
    refine ⟨hstate, ?_, ?_⟩
    · exact List.mem_append.mpr (Or.inr hmem)
    · intro st hst
      rcases List.mem_append.mp hst with h | h
      · simp at h
      · exact hncomp st h
  · intro hkn
    obtain ⟨hstate, hnstop, hncomp⟩ := runItems_stop_last orc k hk
      (validResultsOf env).length 0 (loopStartState c (validResultsOf env).length)
      (by omega) (fun j hj1 hj2 => hbr j hj2)
    refine ⟨hstate, ?_, ?_⟩
    · intro hst
      rcases List.mem_append.mp hst with h | h
      · simp at h
      · exact hnstop h
    · intro st hst
      rcases List.mem_append.mp hst with h | h
      · simp at h
      · exact hncomp st h

/-- Witness for `c8_stop_transitions`: a two-item batch with the stop
request observed at the second item's boundary ends `idle`. -/
theorem c8_stop_transitions_witness :
    (start_batch_processing
        { input_text := "1 100\n2 200", genome_version := "hg38/GRCh38" }
        { stopArrival := some 1 }
        { taskState := TaskState.idle, coordInit := true }).1.taskState =
      TaskState.idle :=
  ((c8_stop_transitions
      { input_text := "1 100\n2 200", genome_version := "hg38/GRCh38" }
      { stopArrival := some 1 }
      { taskState := TaskState.idle, coordInit := true } 1 rfl
      (by decide) (by decide) (by decide) rfl
      (fun j hj => Or.inl rfl)).1 (by decide)).1

/-- C9: a missing or corrupt chain file (the `LiftOver` constructor raises,
or pyliftover is not importable) leaves the service's backend `None`, which
controller-level initialization turns into a hard `RuntimeError` before
returning a service; a batch started without a working coordinate service
aborts to the `error` state having emitted only the start signal and the
initialization-failure notification — no stats, no progress, no per-item
work; and that hard failure is never conflated with the per-locus result:
an uninitialized service's conversion reports the distinct
"converter not initialized" error, a different value from any per-locus
"no hg38 coordinate found" error. -/
theorem c9_chain_fault_hard_error (chainFile : String) (load : String → LiftLoad) :
    (∀ m, load chainFile = LiftLoad.raises m →
      initialize_coordinate_service true chainFile load =
        Except.error "坐标转换器初始化失败") ∧
    (initialize_coordinate_service false chainFile load =
      Except.error "坐标转换器初始化失败") ∧
    (∀ env orc c, can_start_new_task c.taskState = true → c.coordInit = false →
      env.coordInitOk = false →
      start_batch_processing env orc c =
        ({ c with taskState := TaskState.error, shouldStop := false },
         [CtrlEvent.taskStarted,
          CtrlEvent.errorOccurred "初始化失败" "坐标转换服务初始化失败"])) ∧
    (∀ svc chrom pos, svc.liftover = none →
      convert_hg19_to_hg38_traced svc chrom pos =
        ((none, none, some ConvError.notInitialized), [])) ∧
    (∀ chrom pos, ConvError.notInitialized ≠ ConvError.noCoordinate chrom pos) := by
  refine ⟨?_, ?_, ?_, ?_, ?_⟩
  · intro m hm
    simp [initialize_coordinate_service, CoordinateService_init, hm]
  · simp [initialize_coordinate_service, CoordinateService_init]
  · intro env orc c hcan hci hok
    simp [start_batch_processing, hcan, hci, hok]
  · intro svc chrom pos hnone
    simp [convert_hg19_to_hg38_traced, hnone]
  · intro chrom pos
    simp

/-- Witness for `c9_chain_fault_hard_error`: a chain file whose load raises
produces the hard initialization error, and the uninitialized service's
conversion reports the distinct initialization error with no lookup. -/
theorem c9_chain_fault_hard_error_witness :
    initialize_coordinate_service true "hg19ToHg38.over.chain"
        (fun _ => LiftLoad.raises "corrupt chain") =
      Except.error "坐标转换器初始化失败" ∧
    convert_hg19_to_hg38_traced { liftover := none } "1" 100 =
      ((none, none, some ConvError.notInitialized), []) := by
  have h := c9_chain_fault_hard_error "hg19ToHg38.over.chain"
    (fun _ => LiftLoad.raises "corrupt chain")
  exact ⟨h.1 "corrupt chain" rfl, h.2.2.2.1 { liftover := none } "1" 100 rfl⟩
